import Mathlib

/-!
Shallow embedding of the KaliTrade trading core
(`src/backend/src/services/AdvancedOrderService.ts`,
`src/backend/src/services/PortfolioService.ts`,
`src/backend/src/routes/real-trading.ts`) together with theorems checking
the natural-language specification against it.

Numbers are modelled as exact rationals.  Where JavaScript's IEEE-754
semantics is observable (division by zero producing `Infinity`/`NaN`,
comparisons against `NaN`/`undefined`), values are wrapped in `JsVal`,
whose arithmetic follows the ECMAScript rules for those cases.
-/

namespace KaliTrade

/-- A JavaScript number that may be `NaN` or `±Infinity`; finite values are
exact rationals. -/
inductive JsVal where
  | nan : JsVal
  | inf : JsVal
  | ninf : JsVal
  | fin (q : ℚ) : JsVal
deriving DecidableEq, Repr

namespace JsVal

/-- JavaScript `+` on numbers. -/
def jsAdd : JsVal → JsVal → JsVal
  | nan, _ => nan
  | _, nan => nan
  | inf, ninf => nan
  | ninf, inf => nan
  | inf, _ => inf
  | _, inf => inf
  | ninf, _ => ninf
  | _, ninf => ninf
  | fin a, fin b => fin (a + b)

/-- JavaScript unary minus. -/
def jsNeg : JsVal → JsVal
  | nan => nan
  | inf => ninf
  | ninf => inf
  | fin a => fin (-a)

/-- JavaScript `-` on numbers. -/
def jsSub (a b : JsVal) : JsVal := jsAdd a (jsNeg b)

/-- JavaScript `*` on numbers. -/
def jsMul : JsVal → JsVal → JsVal
  | nan, _ => nan
  | _, nan => nan
  | inf, inf => inf
  | inf, ninf => ninf
  | ninf, inf => ninf
  | ninf, ninf => inf
  | inf, fin b => if b = 0 then nan else if 0 < b then inf else ninf
  | fin a, inf => if a = 0 then nan else if 0 < a then inf else ninf
  | ninf, fin b => if b = 0 then nan else if 0 < b then ninf else inf
  | fin a, ninf => if a = 0 then nan else if 0 < a then ninf else inf
  | fin a, fin b => fin (a * b)

/-- JavaScript `/` on numbers (zeros are treated as `+0`). -/
def jsDiv : JsVal → JsVal → JsVal
  | nan, _ => nan
  | _, nan => nan
  | inf, inf => nan
  | inf, ninf => nan
  | ninf, inf => nan
  | ninf, ninf => nan
  | inf, fin b => if 0 ≤ b then inf else ninf
  | ninf, fin b => if 0 ≤ b then ninf else inf
  | fin _, inf => fin 0
  | fin _, ninf => fin 0
  | fin a, fin b =>
      if b = 0 then (if a = 0 then nan else if 0 < a then inf else ninf)
      else fin (a / b)

/-- JavaScript `<` on numbers (`false` whenever `NaN` is involved). -/
def jsLt : JsVal → JsVal → Bool
  | nan, _ => false
  | _, nan => false
  | inf, _ => false
  | ninf, ninf => false
  | ninf, _ => true
  | fin _, inf => true
  | fin _, ninf => false
  | fin a, fin b => decide (a < b)

/-- Sum of a list of JavaScript numbers, as `reduce((a, b) => a + b, 0)`. -/
def jsSum (xs : List JsVal) : JsVal := xs.foldl jsAdd (fin 0)

end JsVal

open JsVal

/-! ## Signal Engine (`src/backend/src/routes/real-trading.ts`) -/

/-- `calculateSMA(prices, period)`: simple moving averages over each full
window; empty when the series is shorter than the period. -/
def calculateSMA (prices : List ℚ) (period : ℕ) : List ℚ :=
  (List.range (prices.length + 1 - period)).map
    (fun idx => (((prices.drop idx).take period).sum) / (period : ℚ))

/-- The recurrence of `calculateEMA`: `ema = x*k + prev*(1-k)` folded over the
remaining series. -/
def emaLoop (k : JsVal) (prev : JsVal) : List JsVal → List JsVal
  | [] => []
  | x :: rest =>
      let v := jsAdd (jsMul x k) (jsMul prev (jsSub (fin 1) k))
      v :: emaLoop k v rest

/-- `calculateEMA(prices, period)`: first value is the SMA of the first
`period` points (JavaScript `slice` just truncates on short input), then the
EMA recurrence.  Over `JsVal` because it is also applied to the MACD series,
which can contain `NaN`. -/
def calculateEMA (xs : List JsVal) (period : ℕ) : List JsVal :=
  let multiplier := fin (2 / ((period : ℚ) + 1))
  let sma := jsDiv (jsSum (xs.take period)) (fin (period : ℚ))
  sma :: emaLoop multiplier sma (xs.drop period)

/-- `ema12[i] - ema26[i]` where `ema26[i]` may be out of range: JavaScript
reads `undefined` there and the subtraction yields `NaN`. -/
def macdEntry (ema12 ema26 : List JsVal) (i : ℕ) : JsVal :=
  match ema26.get? i with
  | none => JsVal.nan
  | some b => jsSub (ema12.getD i (fin 0)) b

/-- `calculateMACD(prices)`. -/
def calculateMACD (xs : List JsVal) : List JsVal × List JsVal :=
  let ema12 := calculateEMA xs 12
  let ema26 := calculateEMA xs 26
  let macd := (List.range ema12.length).map (macdEntry ema12 ema26)
  (macd, calculateEMA macd 9)

/-- The price changes examined by iteration `i` of `calculateRSI`:
`prices[j] - prices[j-1]` for `j = i-period+1 .. i`. -/
def windowChanges (prices : List ℚ) (period : ℕ) (i : ℕ) : List ℚ :=
  (List.range period).map
    (fun t => prices.getD (i + 1 - period + t) 0 - prices.getD (i - period + t) 0)

/-- One iteration of the `calculateRSI` loop: split the window's changes into
gains and losses, average both over `period`, and apply
`100 - 100/(1 + avgGain/avgLoss)` with JavaScript division (so an all-flat
window produces `0/0 = NaN` and a loss-free window `x/0 = Infinity`). -/
def rsiAt (prices : List ℚ) (period : ℕ) (i : ℕ) : JsVal :=
  let changes := windowChanges prices period i
  let gains := changes.filter (fun c => decide (0 < c))
  let losses := (changes.filter (fun c => !decide (0 < c))).map (fun c => |c|)
  let avgGain := jsDiv (fin gains.sum) (fin (period : ℚ))
  let avgLoss := jsDiv (fin losses.sum) (fin (period : ℚ))
  let rs := jsDiv avgGain avgLoss
  jsSub (fin 100) (jsDiv (fin 100) (jsAdd (fin 1) rs))

/-- `calculateRSI(prices, period)`: one value per index `i = period .. len-1`. -/
def calculateRSI (prices : List ℚ) (period : ℕ) : List JsVal :=
  (List.range (prices.length - period)).map (fun idx => rsiAt prices period (period + idx))

/-- `xs[xs.length - 1]`: `undefined` on an empty array. -/
def lastOpt (xs : List JsVal) : Option JsVal := xs.get? (xs.length - 1)

/-- JavaScript `a > b` where `b` may be `undefined` (always `false` then). -/
def gtU (a : ℚ) : Option JsVal → Bool
  | none => false
  | some v => jsLt v (fin a)

/-- JavaScript `a < b` with possibly-`undefined` `a`. -/
def ltU (a : Option JsVal) (b : ℚ) : Bool :=
  match a with
  | none => false
  | some v => jsLt v (fin b)

/-- JavaScript `a > b` where `a` may be `undefined` and `b` is finite. -/
def gtO (a : Option JsVal) (b : ℚ) : Bool :=
  match a with
  | none => false
  | some v => jsLt (fin b) v

/-- JavaScript `a > b` with both sides possibly `undefined`. -/
def gtUU (a b : Option JsVal) : Bool :=
  match a, b with
  | some x, some y => jsLt y x
  | _, _ => false

/-- The five indicator values returned by `performTechnicalAnalysis`;
`none` is JavaScript `undefined` (indexing past the end of an array). -/
structure Indicators where
  sma20 : Option JsVal
  sma50 : Option JsVal
  rsi : Option JsVal
  macd : Option JsVal
  macdSignal : Option JsVal
deriving DecidableEq, Repr

/-- The object returned by `performTechnicalAnalysis`. -/
structure AnalysisResult where
  signal : String
  confidence : ℚ
  reasoning : String
  indicators : Indicators
deriving DecidableEq, Repr

/-- The score/reasoning accumulation of `performTechnicalAnalysis`, in
source order. -/
def scoreAndReasoning (currentPrice change24h : ℚ)
    (latestSMA20 latestSMA50 latestRSI latestMACD latestMACDSignal : Option JsVal) :
    ℤ × List String :=
  let s1 : ℤ × List String :=
    if gtU currentPrice latestSMA20 then (1, ["Price above SMA20"])
    else (-1, ["Price below SMA20"])
  let s2 : ℤ × List String :=
    if gtU currentPrice latestSMA50 then (s1.1 + 1, s1.2 ++ ["Price above SMA50"])
    else (s1.1 - 1, s1.2 ++ ["Price below SMA50"])
  let s3 : ℤ × List String :=
    if ltU latestRSI 30 then (s2.1 + 2, s2.2 ++ ["RSI oversold"])
    else if gtO latestRSI 70 then (s2.1 - 2, s2.2 ++ ["RSI overbought"])
    else s2
  let s4 : ℤ × List String :=
    if gtUU latestMACD latestMACDSignal then (s3.1 + 1, s3.2 ++ ["MACD bullish"])
    else (s3.1 - 1, s3.2 ++ ["MACD bearish"])
  if 5 < change24h then (s4.1 + 1, s4.2 ++ ["Strong 24h gain"])
  else if change24h < -5 then (s4.1 - 1, s4.2 ++ ["Strong 24h decline"])
  else s4

/-- The final signal classification of `performTechnicalAnalysis`. -/
def signalOf (score : ℤ) : String :=
  if 3 ≤ score then "BUY" else if score ≤ -3 then "SELL" else "HOLD"

/-- `performTechnicalAnalysis(prices, currentPrice, change24h)`. -/
def performTechnicalAnalysis (prices : List ℚ) (currentPrice : ℚ) (change24h : ℚ) :
    AnalysisResult :=
  let sma20 := (calculateSMA prices 20).map fin
  let sma50 := (calculateSMA prices 50).map fin
  let rsi := calculateRSI prices 14
  let macdPair := calculateMACD (prices.map fin)
  let latestSMA20 := lastOpt sma20
  let latestSMA50 := lastOpt sma50
  let latestRSI := lastOpt rsi
  let latestMACD := lastOpt macdPair.1
  let latestMACDSignal := lastOpt macdPair.2
  let s5 := scoreAndReasoning currentPrice change24h latestSMA20 latestSMA50
    latestRSI latestMACD latestMACDSignal
  { signal := signalOf s5.1
    confidence := min ((s5.1.natAbs : ℚ) * 15) 95
    reasoning := String.intercalate ", " s5.2
    indicators :=
      { sma20 := latestSMA20
        sma50 := latestSMA50
        rsi := latestRSI
        macd := latestMACD
        macdSignal := latestMACDSignal } }

/-! ## Execution Orchestrator (`src/backend/src/services/AdvancedOrderService.ts`) -/

/-- Order side. -/
inductive Side where
  | buy : Side
  | sell : Side
deriving DecidableEq, Repr

/-- `side === 'BUY' ? 'SELL' : 'BUY'`. -/
def Side.flip : Side → Side
  | .buy => .sell
  | .sell => .buy

/-- Order type strings accepted by the service. -/
inductive OrderType where
  | market : OrderType
  | limit : OrderType
  | stop : OrderType
  | stopLimit : OrderType
  | takeProfit : OrderType
  | takeProfitLimit : OrderType
deriving DecidableEq, Repr

/-- Persisted order status (the subset this core writes or reads). -/
inductive Status where
  | pending : Status
  | filled : Status
  | cancelled : Status
  | rejected : Status
deriving DecidableEq, Repr

/-- `timeInForce`. -/
inductive TIF where
  | gtc : TIF
  | ioc : TIF
  | fok : TIF
deriving DecidableEq, Repr

/-- The payload sent to `exchangeOAuthService.placeOrder`; `none` models an
omitted (JavaScript `undefined`) field. -/
structure GatewayRequest where
  exchangeName : String
  userId : String
  symbol : String
  side : Side
  type : OrderType
  quantity : ℚ
  price : Option ℚ
  stopPrice : Option ℚ
  timeInForce : TIF
  reduceOnly : Option Bool
  postOnly : Option Bool
deriving DecidableEq, Repr

/-- The gateway's placement response (`mainOrder.orderId || mainOrder.id`
collapsed into one id field). -/
structure GatewayResponse where
  orderId : String
deriving DecidableEq, Repr

/-- An `ExchangeConnection` row as read by this core. -/
structure ConnectionRec where
  userId : String
  exchangeName : String
  isActive : Bool
deriving DecidableEq, Repr

/-- A balance entry returned by `getAccountBalance`. -/
structure BalanceRec where
  asset : String
  free : ℚ
deriving DecidableEq, Repr

/-- `stopLoss` leg configuration. -/
structure StopLossConfig where
  enabled : Bool
  price : ℚ
  percentage : Option ℚ
deriving DecidableEq, Repr

/-- `takeProfit` leg configuration. -/
structure TakeProfitConfig where
  enabled : Bool
  price : ℚ
  percentage : Option ℚ
deriving DecidableEq, Repr

/-- `trailingStop` leg configuration. -/
structure TrailingStopConfig where
  enabled : Bool
  distance : ℚ
  percentage : Option Bool
deriving DecidableEq, Repr

/-- `dcaConfig` ladder configuration. -/
structure DcaConfig where
  enabled : Bool
  levels : ℕ
  stepSize : ℚ
  stepPercentage : Option ℚ
deriving DecidableEq, Repr

/-- `AdvancedOrderConfig`: the optional conditional legs of a placement. -/
structure AdvancedOrderConfig where
  stopLoss : Option StopLossConfig := none
  takeProfit : Option TakeProfitConfig := none
  trailingStop : Option TrailingStopConfig := none
  dcaConfig : Option DcaConfig := none
deriving DecidableEq, Repr

/-- The free-form JSON written into an order's `config` column: the whole
`AdvancedOrderConfig` for a primary (`config || {}`), or a
`{type: ..., config: ...}` blob for a derived leg. -/
inductive StoredConfig where
  | advanced (cfg : AdvancedOrderConfig) : StoredConfig
  | stopLossLeg (cfg : StopLossConfig) : StoredConfig
  | takeProfitLeg (cfg : TakeProfitConfig) : StoredConfig
  | trailingStopLeg (cfg : TrailingStopConfig) : StoredConfig
  | dcaLeg (level : ℕ) (totalLevels : ℕ) (cfg : DcaConfig) : StoredConfig
deriving DecidableEq, Repr

/-- `config.type`: present only on derived-leg blobs (an
`AdvancedOrderConfig` has no `type` key). -/
def configType : StoredConfig → Option String
  | .advanced _ => none
  | .stopLossLeg _ => some "stop_loss"
  | .takeProfitLeg _ => some "take_profit"
  | .trailingStopLeg _ => some "trailing_stop"
  | .dcaLeg _ _ _ => some "dca"

/-- A persisted `Order` row, with exactly the columns this service writes. -/
structure OrderRecord where
  id : ℕ
  userId : String
  exchangeName : String
  exchangeOrderId : String
  symbol : String
  side : Side
  type : OrderType
  quantity : ℚ
  price : Option ℚ
  status : Status
  filledQuantity : ℚ
  averagePrice : Option ℚ
  exchangeData : Option GatewayResponse
  config : StoredConfig
deriving DecidableEq, Repr

/-- The external collaborators: persistence-independent inputs of one call.
`gateway`/`accountBalance` return `Except` to model thrown errors. -/
structure Env where
  connections : List ConnectionRec
  marketPrice : String → Option ℚ
  gateway : GatewayRequest → Except String GatewayResponse
  accountBalance : String → String → Except String (List BalanceRec)
  now : ℕ

/-- Mutable state threaded through a call: the order table, the id counter,
and a count of calls made to the Exchange Gateway
(`exchangeOAuthService.placeOrder`/`getAccountBalance`). -/
structure St where
  db : List OrderRecord
  nextId : ℕ
  gatewayCalls : ℕ
deriving DecidableEq, Repr

/-- The argument of `AdvancedOrderService.placeOrder`. -/
structure OrderRequest where
  userId : String
  exchangeName : String
  symbol : String
  side : Side
  type : OrderType
  quantity : ℚ
  price : Option ℚ := none
  stopPrice : Option ℚ := none
  timeInForce : Option TIF := none
  reduceOnly : Option Bool := none
  postOnly : Option Bool := none
deriving DecidableEq, Repr

/-- The discriminated result of `placeOrder`. -/
structure OrderExecutionResult where
  success : Bool
  orderId : Option ℕ := none
  error : Option String := none
  orders : List OrderRecord := []
deriving DecidableEq, Repr

/-- Count one call to the Exchange Gateway. -/
def bumpGateway (st : St) : St :=
  { st with gatewayCalls := st.gatewayCalls + 1 }

/-- `prisma.order.create`: assign the next id and append the row. -/
def createOrder (st : St) (mk : ℕ → OrderRecord) : OrderRecord × St :=
  let row := mk st.nextId
  (row, { st with db := st.db ++ [row], nextId := st.nextId + 1 })

/-- `AdvancedOrderService.validateOrder`, checks in source order: active
connection, quantity, price for limit types, symbol known to market data,
then a balance fetch from the gateway (its value unused). -/
def validateOrder (env : Env) (st : St) (req : OrderRequest) :
    (Bool × Option String) × St :=
  if !(env.connections.any fun c =>
      c.userId = req.userId && c.exchangeName = req.exchangeName && c.isActive) then
    ((false, some "No active connection to exchange"), st)
  else if req.quantity ≤ 0 then
    ((false, some "Quantity must be greater than 0"), st)
  else if (req.type = .limit || req.type = .stopLimit) &&
      (match req.price with | none => true | some p => decide (p ≤ 0)) then
    ((false, some "Price is required for limit orders"), st)
  else if (env.marketPrice req.symbol).isNone then
    ((false, some "Symbol not supported or not found"), st)
  else
    match env.accountBalance req.exchangeName req.userId with
    | .error e => ((false, some e), bumpGateway st)
    | .ok _ => ((true, none), bumpGateway st)

/-- `AdvancedOrderService.placeStopLossOrder`: opposite side, `STOP_LIMIT`
at the configured price, placed at the gateway then persisted; a thrown
gateway error is caught and yields `null`. -/
def placeStopLossOrder (env : Env) (st : St) (userId exchangeName symbol : String)
    (side : Side) (quantity : ℚ) (cfg : StopLossConfig) :
    Option OrderRecord × St :=
  let stopLossSide := side.flip
  let st1 := bumpGateway st
  match env.gateway
      { exchangeName, userId, symbol
        side := stopLossSide
        type := .stopLimit
        quantity
        price := some cfg.price
        stopPrice := some cfg.price
        timeInForce := .gtc
        reduceOnly := none
        postOnly := none } with
  | .error _ => (none, st1)
  | .ok resp =>
      let (row, st2) := createOrder st1 fun id =>
        { id, userId, exchangeName
          exchangeOrderId := resp.orderId
          symbol
          side := stopLossSide
          type := .stopLimit
          quantity
          price := some cfg.price
          status := .pending
          filledQuantity := 0
          averagePrice := none
          exchangeData := some resp
          config := .stopLossLeg cfg }
      (some row, st2)

/-- `AdvancedOrderService.placeTakeProfitOrder`: opposite side, `LIMIT` at
the configured price. -/
def placeTakeProfitOrder (env : Env) (st : St) (userId exchangeName symbol : String)
    (side : Side) (quantity : ℚ) (cfg : TakeProfitConfig) :
    Option OrderRecord × St :=
  let takeProfitSide := side.flip
  let st1 := bumpGateway st
  match env.gateway
      { exchangeName, userId, symbol
        side := takeProfitSide
        type := .limit
        quantity
        price := some cfg.price
        stopPrice := none
        timeInForce := .gtc
        reduceOnly := none
        postOnly := none } with
  | .error _ => (none, st1)
  | .ok resp =>
      let (row, st2) := createOrder st1 fun id =>
        { id, userId, exchangeName
          exchangeOrderId := resp.orderId
          symbol
          side := takeProfitSide
          type := .limit
          quantity
          price := some cfg.price
          status := .pending
          filledQuantity := 0
          averagePrice := none
          exchangeData := some resp
          config := .takeProfitLeg cfg }
      (some row, st2)

/-- `AdvancedOrderService.placeTrailingStopOrder`: never touches the
gateway — it only persists a local `STOP` row with price `0`, empty
exchange data and a synthetic `trailing_${Date.now()}` id. -/
def placeTrailingStopOrder (env : Env) (st : St) (userId exchangeName symbol : String)
    (side : Side) (quantity : ℚ) (cfg : TrailingStopConfig) :
    Option OrderRecord × St :=
  let trailingStopSide := side.flip
  let (row, st1) := createOrder st fun id =>
    { id, userId, exchangeName
      exchangeOrderId := "trailing_" ++ toString env.now
      symbol
      side := trailingStopSide
      type := .stop
      quantity
      price := some 0
      status := .pending
      filledQuantity := 0
      averagePrice := none
      exchangeData := none
      config := .trailingStopLeg cfg }
  (some row, st1)

/-- The ladder price of DCA level `i`: `currentPrice ∓ step·i`, where the
step is percentage-based when `stepPercentage` is truthy (nonzero). -/
def dcaPrice (currentPrice : ℚ) (side : Side) (cfg : DcaConfig) (i : ℕ) : ℚ :=
  let priceStep :=
    match cfg.stepPercentage with
    | some sp => if sp = 0 then cfg.stepSize * i else currentPrice * (sp / 100) * i
    | none => cfg.stepSize * i
  match side with
  | .buy => currentPrice - priceStep
  | .sell => currentPrice + priceStep

/-- The loop body of `placeDCAOrders` over the remaining levels; a thrown
gateway error is caught by the surrounding `try` and stops the ladder,
keeping the orders already placed. -/
def placeDCAOrdersLoop (env : Env) (userId exchangeName symbol : String) (side : Side)
    (quantityPerLevel currentPrice : ℚ) (cfg : DcaConfig) :
    List ℕ → St → List OrderRecord × St
  | [], st => ([], st)
  | i :: rest, st =>
      let st1 := bumpGateway st
      match env.gateway
          { exchangeName, userId, symbol, side
            type := .limit
            quantity := quantityPerLevel
            price := some (dcaPrice currentPrice side cfg i)
            stopPrice := none
            timeInForce := .gtc
            reduceOnly := none
            postOnly := none } with
      | .error _ => ([], st1)
      | .ok resp =>
          let (row, st2) := createOrder st1 fun id =>
            { id, userId, exchangeName
              exchangeOrderId := resp.orderId
              symbol, side
              type := .limit
              quantity := quantityPerLevel
              price := some (dcaPrice currentPrice side cfg i)
              status := .pending
              filledQuantity := 0
              averagePrice := none
              exchangeData := some resp
              config := .dcaLeg i cfg.levels cfg }
          let (rows, st3) := placeDCAOrdersLoop env userId exchangeName symbol side
            quantityPerLevel currentPrice cfg rest st2
          (row :: rows, st3)

/-- `AdvancedOrderService.placeDCAOrders`: split the quantity into equal
levels and ladder `LIMIT` orders away from the current market price; with no
market data the thrown error is caught and no order is placed. -/
def placeDCAOrders (env : Env) (st : St) (userId exchangeName symbol : String)
    (side : Side) (totalQuantity : ℚ) (cfg : DcaConfig) :
    List OrderRecord × St :=
  match env.marketPrice symbol with
  | none => ([], st)
  | some currentPrice =>
      placeDCAOrdersLoop env userId exchangeName symbol side
        (totalQuantity / (cfg.levels : ℚ)) currentPrice cfg
        ((List.range cfg.levels).map (· + 1)) st

/-- `AdvancedOrderService.placeAdvancedOrders`: attempt each enabled leg in
source order, skipping legs that failed (`null`). -/
def placeAdvancedOrders (env : Env) (st : St) (userId exchangeName symbol : String)
    (side : Side) (quantity : ℚ) (config : Option AdvancedOrderConfig) :
    List OrderRecord × St :=
  match config with
  | none => ([], st)
  | some cfg =>
      let (sl, st1) :=
        match cfg.stopLoss with
        | some c => if c.enabled then
            placeStopLossOrder env st userId exchangeName symbol side quantity c
          else (none, st)
        | none => (none, st)
      let (tp, st2) :=
        match cfg.takeProfit with
        | some c => if c.enabled then
            placeTakeProfitOrder env st1 userId exchangeName symbol side quantity c
          else (none, st1)
        | none => (none, st1)
      let (ts, st3) :=
        match cfg.trailingStop with
        | some c => if c.enabled then
            placeTrailingStopOrder env st2 userId exchangeName symbol side quantity c
          else (none, st2)
        | none => (none, st2)
      let (dca, st4) :=
        match cfg.dcaConfig with
        | some c => if c.enabled then
            placeDCAOrders env st3 userId exchangeName symbol side quantity c
          else ([], st3)
        | none => ([], st3)
      (sl.toList ++ tp.toList ++ ts.toList ++ dca, st4)

/-- `AdvancedOrderService.placeOrder`: validate, resolve a market execution
price, place and persist the primary, then attach the configured legs. -/
def placeOrder (env : Env) (st : St) (req : OrderRequest)
    (config : Option AdvancedOrderConfig) :
    OrderExecutionResult × St :=
  let ((valid, verr), st1) := validateOrder env st req
  if !valid then
    ({ success := false, error := verr }, st1)
  else
    let executionPrice :=
      if req.type = .market then
        match env.marketPrice req.symbol with
        | some p => some p
        | none => req.price
      else req.price
    let st2 := bumpGateway st1
    match env.gateway
        { exchangeName := req.exchangeName
          userId := req.userId
          symbol := req.symbol
          side := req.side
          type := req.type
          quantity := req.quantity
          price := executionPrice
          stopPrice := req.stopPrice
          timeInForce := req.timeInForce.getD .gtc
          reduceOnly := some (req.reduceOnly.getD false)
          postOnly := some (req.postOnly.getD false) } with
    | .error e => ({ success := false, error := some e }, st2)
    | .ok resp =>
        let (dbOrder, st3) := createOrder st2 fun id =>
          { id
            userId := req.userId
            exchangeName := req.exchangeName
            exchangeOrderId := resp.orderId
            symbol := req.symbol
            side := req.side
            type := req.type
            quantity := req.quantity
            price := executionPrice
            status := .pending
            filledQuantity := 0
            averagePrice := none
            exchangeData := some resp
            config := .advanced (config.getD {}) }
        let (advancedOrders, st4) := placeAdvancedOrders env st3 req.userId
          req.exchangeName req.symbol req.side req.quantity config
        ({ success := true
           orderId := some dbOrder.id
           orders := dbOrder :: advancedOrders }, st4)

/-- The discriminated result of `cancelOrder`. -/
structure CancelResult where
  success : Bool
  error : Option String := none
deriving DecidableEq, Repr

/-- `AdvancedOrderService.cancelOrder`: mark the order `CANCELLED` in the
database (the exchange-side cancel is a commented-out placeholder in the
source, so no gateway call happens), then, only when the order's config blob
has a `type` key, recursively cancel every order of the same user, symbol
and `config.type`; the recursive results are awaited but discarded, as in
the source.  `fuel` bounds the unbounded recursion of the source. -/
def cancelOrder (fuel : ℕ) (userId : String) (orderId : ℕ) (st : St) :
    CancelResult × St :=
  match fuel with
  | 0 => ({ success := false, error := some "Failed to cancel order" }, st)
  | fuel + 1 =>
    match st.db.find? (fun o => o.id = orderId && o.userId = userId) with
    | none => ({ success := false, error := some "Order not found" }, st)
    | some order =>
        let st1 := { st with
          db := st.db.map fun o =>
            if o.id = orderId then { o with status := .cancelled } else o }
        match configType order.config with
        | none => ({ success := true }, st1)
        | some t =>
            let related := st1.db.filter fun o =>
              o.userId = userId && o.symbol = order.symbol &&
                configType o.config = some t
            ({ success := true },
             (related.map (fun o => o.id)).foldl
               (fun acc oid => (cancelOrder fuel userId oid acc).2) st1)

/-! ## Portfolio Ledger and Rebalancer (`src/backend/src/services/PortfolioService.ts`) -/

/-- Drop the first occurrence of `pat` from the character list. -/
def removeFirstList (pat : List Char) : List Char → List Char
  | [] => []
  | c :: rest =>
      if pat.isPrefixOf (c :: rest) then (c :: rest).drop pat.length
      else c :: removeFirstList pat rest

/-- JavaScript `String.prototype.replace` with a string pattern and an empty
replacement: remove the first occurrence only. -/
def replaceFirst (s pat : String) : String :=
  ⟨removeFirstList pat.data s.data⟩

/-- JavaScript `String.prototype.endsWith`. -/
def jsEndsWith (s pat : String) : Bool :=
  pat.data.isSuffixOf s.data

/-- `PortfolioService.formatSymbol`. -/
def formatSymbol (asset : String) : String :=
  if asset = "USDT" || asset = "USD" then "USDT/USD"
  else
    match ["USDT", "USD", "BTC", "ETH"].find? (fun q => jsEndsWith asset q) with
    | some q => replaceFirst asset q ++ "/" ++ q
    | none => asset ++ "/USDT"

/-- JavaScript `a || b` on numbers where `a` may be absent: `0`, `null` and
`undefined` are falsy. -/
def jsOrQ (a : Option ℚ) (b : ℚ) : ℚ :=
  match a with
  | some x => if x = 0 then b else x
  | none => b

/-- `PortfolioService.calculateAveragePrice`: replay the chronological
`FILLED` `BUY` orders of `(user, exchange, symbol)`;
`filledQuantity || quantity` and `averagePrice || price || 0` follow
JavaScript truthiness. -/
def calculateAveragePrice (db : List OrderRecord)
    (userId exchangeName symbol : String) : ℚ :=
  let buyOrders := db.filter fun o =>
    o.userId = userId && o.exchangeName = exchangeName && o.symbol = symbol &&
      o.side = Side.buy && o.status = Status.filled
  if buyOrders.isEmpty then 0
  else
    let filledOf := fun (o : OrderRecord) =>
      if o.filledQuantity = 0 then o.quantity else o.filledQuantity
    let avgPriceOf := fun (o : OrderRecord) => jsOrQ o.averagePrice (jsOrQ o.price 0)
    let totalQuantity := (buyOrders.map filledOf).sum
    let totalCost := (buyOrders.map (fun o => filledOf o * avgPriceOf o)).sum
    if 0 < totalQuantity then totalCost / totalQuantity else 0

/-- A `PortfolioPosition`. -/
structure Position where
  symbol : String
  quantity : ℚ
  averagePrice : ℚ
  currentPrice : ℚ
  marketValue : ℚ
  unrealizedPnL : ℚ
  unrealizedPnLPercent : ℚ
  exchangeName : String
deriving DecidableEq, Repr

/-- `PortfolioService.processExchangeBalances`: one position per
nonzero-balance asset, priced at the market data price (or `0` when the
symbol is unknown). -/
def processExchangeBalances (env : Env) (db : List OrderRecord)
    (exchangeName : String) (balances : List BalanceRec) (userId : String) :
    List Position :=
  balances.filterMap fun b =>
    let symbol := formatSymbol b.asset
    let quantity := b.free
    if 0 < quantity then
      let currentPrice := (env.marketPrice symbol).getD 0
      let averagePrice := calculateAveragePrice db userId exchangeName symbol
      let marketValue := quantity * currentPrice
      let costBasis := quantity * averagePrice
      let unrealizedPnL := marketValue - costBasis
      some
        { symbol, quantity, averagePrice, currentPrice, marketValue, unrealizedPnL
          unrealizedPnLPercent :=
            if 0 < costBasis then unrealizedPnL / costBasis * 100 else 0
          exchangeName }
    else none

/-- A `PortfolioSummary`. -/
structure Summary where
  totalValue : ℚ
  totalCost : ℚ
  totalPnL : ℚ
  totalPnLPercent : ℚ
  dayChange : ℚ
  dayChangePercent : ℚ
  positions : List Position
  exchanges : List (String × ℚ)
deriving DecidableEq, Repr

/-- `PortfolioService.getPortfolioSummary`: aggregate positions over every
active connection; a failing balance fetch skips that exchange. -/
def getPortfolioSummary (env : Env) (db : List OrderRecord) (userId : String) :
    Summary :=
  let connections := env.connections.filter fun c => c.userId = userId && c.isActive
  if connections.isEmpty then
    { totalValue := 0, totalCost := 0, totalPnL := 0, totalPnLPercent := 0
      dayChange := 0, dayChangePercent := 0, positions := [], exchanges := [] }
  else
    let perConn := connections.filterMap fun c =>
      match env.accountBalance c.exchangeName userId with
      | .error _ => none
      | .ok balances =>
          let positions := processExchangeBalances env db c.exchangeName balances userId
          some (c.exchangeName, positions)
    let allPositions := (perConn.map Prod.snd).flatten
    let totalValue := (allPositions.map (·.marketValue)).sum
    let totalCost := (allPositions.map (fun p => p.quantity * p.averagePrice)).sum
    let totalPnL := totalValue - totalCost
    { totalValue, totalCost, totalPnL
      totalPnLPercent := if 0 < totalCost then totalPnL / totalCost * 100 else 0
      dayChange := 0
      dayChangePercent := 0
      positions := allPositions
      exchanges := perConn.map fun pc =>
        (pc.1, ((pc.2.map (·.marketValue)).sum)) }

/-- A `PortfolioAllocation` entry; the percentage is a JavaScript number
because a zero `totalValue` divides by zero. -/
structure Allocation where
  symbol : String
  percentage : JsVal
  value : ℚ
  quantity : ℚ
deriving DecidableEq, Repr

/-- Insert into a list sorted by `le`. -/
def insertSorted {α : Type} (le : α → α → Bool) (x : α) : List α → List α
  | [] => [x]
  | y :: ys => if le x y then x :: y :: ys else y :: insertSorted le x ys

/-- Comparator-driven sort standing in for `Array.prototype.sort`. -/
def sortBy {α : Type} (le : α → α → Bool) : List α → List α
  | [] => []
  | x :: xs => insertSorted le x (sortBy le xs)

/-- `a` may precede `b` in the descending-percentage order of
`getPortfolioAllocation`. -/
def allocBefore (a b : Allocation) : Bool :=
  jsLt b.percentage a.percentage || decide (a.percentage = b.percentage)

/-- `PortfolioService.getPortfolioAllocation`: empty only when there are no
positions; otherwise one entry per position, `marketValue/totalValue*100`,
sorted by descending percentage. -/
def getPortfolioAllocation (env : Env) (db : List OrderRecord) (userId : String) :
    List Allocation :=
  let portfolio := getPortfolioSummary env db userId
  if portfolio.positions.isEmpty then []
  else
    sortBy allocBefore <| portfolio.positions.map fun p =>
      { symbol := p.symbol
        percentage := jsMul (jsDiv (fin p.marketValue) (fin portfolio.totalValue)) (fin 100)
        value := p.marketValue
        quantity := p.quantity }

/-- A proposed rebalance order (its `config` is `{rebalance: true,
targetAllocation: pct}`). -/
structure RebalanceOrder where
  userId : String
  exchangeName : String
  symbol : String
  side : Side
  type : OrderType
  quantity : ℚ
  rebalanceTarget : ℚ
deriving DecidableEq, Repr

/-- The result of `rebalancePortfolio`. -/
structure RebalanceResult where
  success : Bool
  orders : List RebalanceOrder
deriving DecidableEq, Repr

/-- One iteration of the `rebalancePortfolio` loop: emit an order when the
deviation exceeds 1% of total value; the divisor is
`currentPosition?.currentPrice || 1` and the exchange
`currentPosition?.exchangeName || 'binance'`. -/
def rebalanceEntry (userId : String) (totalValue : ℚ) (positions : List Position)
    (entry : String × ℚ) : Option RebalanceOrder :=
  let symbol := entry.1
  let targetPercent := entry.2
  let targetValue := totalValue * (targetPercent / 100)
  let currentPosition := positions.find? (fun p => p.symbol = symbol)
  let currentValue := match currentPosition with
    | some p => p.marketValue
    | none => 0
  let difference := targetValue - currentValue
  if totalValue * (1 / 100) < |difference| then
    some
      { userId
        exchangeName :=
          match currentPosition with
          | some p => if p.exchangeName = "" then "binance" else p.exchangeName
          | none => "binance"
        symbol
        side := if 0 < difference then .buy else .sell
        type := .market
        quantity := |difference| /
          (match currentPosition with
           | some p => if p.currentPrice = 0 then 1 else p.currentPrice
           | none => 1)
        rebalanceTarget := targetPercent }
  else none

/-- `PortfolioService.rebalancePortfolio`. -/
def rebalancePortfolio (env : Env) (db : List OrderRecord) (userId : String)
    (targetAllocation : List (String × ℚ)) : RebalanceResult :=
  let currentPortfolio := getPortfolioSummary env db userId
  { success := true
    orders := targetAllocation.filterMap
      (rebalanceEntry userId currentPortfolio.totalValue currentPortfolio.positions) }

/-- Modelled from the spec (§4.6), for comparison with `rebalanceEntry`:
"targetValue = totalValue×targetPct/100; diff = targetValue − currentValue;
if |diff| exceeds 1% of totalValue, emit BUY (diff>0) or SELL (diff<0) of
quantity |diff|/currentPrice on that symbol's primary exchange", where
`currentPrice` is the market price of the symbol. -/
def specRebalanceEntry (totalValue : ℚ) (positions : List Position)
    (currentPrice : String → ℚ) (entry : String × ℚ) : Option (String × Side × ℚ) :=
  let symbol := entry.1
  let targetValue := totalValue * entry.2 / 100
  let currentValue := match positions.find? (fun p => p.symbol = symbol) with
    | some p => p.marketValue
    | none => 0
  let diff := targetValue - currentValue
  if totalValue * (1 / 100) < |diff| then
    some (symbol, (if 0 < diff then Side.buy else Side.sell), |diff| / currentPrice symbol)
  else none

/-! ## Evaluation lemmas for the order pipeline -/

/-- `validateOrder` succeeds (consuming one gateway call for the balance
check) when a connection is active, the quantity is positive, the order is a
market order and the symbol is known. -/
theorem validateOrder_ok {env : Env} {st : St} {req : OrderRequest}
    {bals : List BalanceRec} {P : ℚ}
    (hconn : (env.connections.any fun c =>
      c.userId = req.userId && c.exchangeName = req.exchangeName && c.isActive) = true)
    (hq : 0 < req.quantity)
    (htype : req.type = .market)
    (hmp : env.marketPrice req.symbol = some P)
    (hbal : env.accountBalance req.exchangeName req.userId = .ok bals) :
    validateOrder env st req = ((true, none), bumpGateway st) := by
  unfold validateOrder
  rw [hconn, hbal]
  simp [htype, hmp, not_le.mpr hq]

/-- The gateway payload `placeOrder` sends for the primary of a market
order whose market price resolved to `P`. -/
def primaryRequest (req : OrderRequest) (P : ℚ) : GatewayRequest :=
  { exchangeName := req.exchangeName
    userId := req.userId
    symbol := req.symbol
    side := req.side
    type := .market
    quantity := req.quantity
    price := some P
    stopPrice := req.stopPrice
    timeInForce := req.timeInForce.getD .gtc
    reduceOnly := some (req.reduceOnly.getD false)
    postOnly := some (req.postOnly.getD false) }

/-- The persisted primary row of a successful market `placeOrder`. -/
def primaryRow (req : OrderRequest) (P : ℚ) (resp : GatewayResponse)
    (config : Option AdvancedOrderConfig) (id : ℕ) : OrderRecord :=
  { id
    userId := req.userId
    exchangeName := req.exchangeName
    exchangeOrderId := resp.orderId
    symbol := req.symbol
    side := req.side
    type := .market
    quantity := req.quantity
    price := some P
    status := .pending
    filledQuantity := 0
    averagePrice := none
    exchangeData := some resp
    config := .advanced (config.getD {}) }

/-- Reduction of a successful market `placeOrder`: validation passes, the
primary is placed and persisted (two gateway calls so far), and the call
hands over to `placeAdvancedOrders`. -/
theorem placeOrder_ok {env : Env} {st : St} {req : OrderRequest}
    {config : Option AdvancedOrderConfig} {bals : List BalanceRec} {P : ℚ}
    {resp : GatewayResponse}
    (hconn : (env.connections.any fun c =>
      c.userId = req.userId && c.exchangeName = req.exchangeName && c.isActive) = true)
    (hq : 0 < req.quantity)
    (htype : req.type = .market)
    (hmp : env.marketPrice req.symbol = some P)
    (hbal : env.accountBalance req.exchangeName req.userId = .ok bals)
    (hgwp : env.gateway (primaryRequest req P) = .ok resp) :
    placeOrder env st req config =
      (let row := primaryRow req P resp config st.nextId
       let st3 : St := { db := st.db ++ [row], nextId := st.nextId + 1
                         gatewayCalls := st.gatewayCalls + 2 }
       let adv := placeAdvancedOrders env st3 req.userId req.exchangeName
         req.symbol req.side req.quantity config
       ({ success := true, orderId := some st.nextId, orders := row :: adv.1 },
        adv.2)) := by
  unfold placeOrder
  rw [validateOrder_ok hconn hq htype hmp hbal]
  unfold primaryRequest at hgwp
  simp [htype, hmp, hgwp, createOrder, bumpGateway, primaryRow, Nat.add_assoc]

/-- The gateway payload of a stop-loss leg. -/
def stopLossRequest (userId exchangeName symbol : String) (side : Side)
    (quantity : ℚ) (cfg : StopLossConfig) : GatewayRequest :=
  { exchangeName, userId, symbol
    side := side.flip
    type := .stopLimit
    quantity
    price := some cfg.price
    stopPrice := some cfg.price
    timeInForce := .gtc
    reduceOnly := none
    postOnly := none }

/-- The persisted stop-loss row. -/
def stopLossRow (userId exchangeName symbol : String) (side : Side) (quantity : ℚ)
    (cfg : StopLossConfig) (resp : GatewayResponse) (id : ℕ) : OrderRecord :=
  { id, userId, exchangeName
    exchangeOrderId := resp.orderId
    symbol
    side := side.flip
    type := .stopLimit
    quantity
    price := some cfg.price
    status := .pending
    filledQuantity := 0
    averagePrice := none
    exchangeData := some resp
    config := .stopLossLeg cfg }

/-- Reduction of a successful stop-loss leg. -/
theorem placeStopLossOrder_ok {env : Env} {st : St} {userId exchangeName symbol : String}
    {side : Side} {quantity : ℚ} {cfg : StopLossConfig} {resp : GatewayResponse}
    (hgw : env.gateway (stopLossRequest userId exchangeName symbol side quantity cfg)
      = .ok resp) :
    placeStopLossOrder env st userId exchangeName symbol side quantity cfg =
      (some (stopLossRow userId exchangeName symbol side quantity cfg resp st.nextId),
       { db := st.db ++ [stopLossRow userId exchangeName symbol side quantity cfg resp st.nextId]
         nextId := st.nextId + 1
         gatewayCalls := st.gatewayCalls + 1 }) := by
  unfold placeStopLossOrder
  unfold stopLossRequest at hgw
  simp [hgw, createOrder, bumpGateway, stopLossRow]

/-- Reduction of a stop-loss leg whose gateway placement throws: the error
is caught and the leg is skipped. -/
theorem placeStopLossOrder_fail {env : Env} {st : St}
    {userId exchangeName symbol : String}
    {side : Side} {quantity : ℚ} {cfg : StopLossConfig} {e : String}
    (hgw : env.gateway (stopLossRequest userId exchangeName symbol side quantity cfg)
      = .error e) :
    placeStopLossOrder env st userId exchangeName symbol side quantity cfg =
      (none, bumpGateway st) := by
  unfold placeStopLossOrder
  unfold stopLossRequest at hgw
  simp [hgw, bumpGateway]

/-- The gateway payload of a take-profit leg. -/
def takeProfitRequest (userId exchangeName symbol : String) (side : Side)
    (quantity : ℚ) (cfg : TakeProfitConfig) : GatewayRequest :=
  { exchangeName, userId, symbol
    side := side.flip
    type := .limit
    quantity
    price := some cfg.price
    stopPrice := none
    timeInForce := .gtc
    reduceOnly := none
    postOnly := none }

/-- The persisted take-profit row. -/
def takeProfitRow (userId exchangeName symbol : String) (side : Side) (quantity : ℚ)
    (cfg : TakeProfitConfig) (resp : GatewayResponse) (id : ℕ) : OrderRecord :=
  { id, userId, exchangeName
    exchangeOrderId := resp.orderId
    symbol
    side := side.flip
    type := .limit
    quantity
    price := some cfg.price
    status := .pending
    filledQuantity := 0
    averagePrice := none
    exchangeData := some resp
    config := .takeProfitLeg cfg }

/-- Reduction of a successful take-profit leg. -/
theorem placeTakeProfitOrder_ok {env : Env} {st : St}
    {userId exchangeName symbol : String}
    {side : Side} {quantity : ℚ} {cfg : TakeProfitConfig} {resp : GatewayResponse}
    (hgw : env.gateway (takeProfitRequest userId exchangeName symbol side quantity cfg)
      = .ok resp) :
    placeTakeProfitOrder env st userId exchangeName symbol side quantity cfg =
      (some (takeProfitRow userId exchangeName symbol side quantity cfg resp st.nextId),
       { db := st.db ++ [takeProfitRow userId exchangeName symbol side quantity cfg resp st.nextId]
         nextId := st.nextId + 1
         gatewayCalls := st.gatewayCalls + 1 }) := by
  unfold placeTakeProfitOrder
  unfold takeProfitRequest at hgw
  simp [hgw, createOrder, bumpGateway, takeProfitRow]

/-- Reduction of a take-profit leg whose gateway placement throws. -/
theorem placeTakeProfitOrder_fail {env : Env} {st : St}
    {userId exchangeName symbol : String}
    {side : Side} {quantity : ℚ} {cfg : TakeProfitConfig} {e : String}
    (hgw : env.gateway (takeProfitRequest userId exchangeName symbol side quantity cfg)
      = .error e) :
    placeTakeProfitOrder env st userId exchangeName symbol side quantity cfg =
      (none, bumpGateway st) := by
  unfold placeTakeProfitOrder
  unfold takeProfitRequest at hgw
  simp [hgw, bumpGateway]

/-- The locally persisted trailing-stop row. -/
def trailingStopRow (env : Env) (userId exchangeName symbol : String) (side : Side)
    (quantity : ℚ) (cfg : TrailingStopConfig) (id : ℕ) : OrderRecord :=
  { id, userId, exchangeName
    exchangeOrderId := "trailing_" ++ toString env.now
    symbol
    side := side.flip
    type := .stop
    quantity
    price := some 0
    status := .pending
    filledQuantity := 0
    averagePrice := none
    exchangeData := none
    config := .trailingStopLeg cfg }

/-- Reduction of a trailing-stop leg: no hypothesis about the gateway is
needed because the source never calls it, and the gateway call count is
untouched. -/
theorem placeTrailingStopOrder_eq (env : Env) (st : St)
    (userId exchangeName symbol : String)
    (side : Side) (quantity : ℚ) (cfg : TrailingStopConfig) :
    placeTrailingStopOrder env st userId exchangeName symbol side quantity cfg =
      (some (trailingStopRow env userId exchangeName symbol side quantity cfg st.nextId),
       { db := st.db ++ [trailingStopRow env userId exchangeName symbol side quantity cfg st.nextId]
         nextId := st.nextId + 1
         gatewayCalls := st.gatewayCalls }) := by
  unfold placeTrailingStopOrder
  simp [createOrder, trailingStopRow]

/-! ## Shared concrete fixtures -/

/-- An empty database state. -/
def st0 : St := { db := [], nextId := 0, gatewayCalls := 0 }

/-- An environment with one active binance connection for user `"u"`, a
known `"BTCUSDT"` market at 50000, and an always-succeeding gateway. -/
def sampleEnv : Env :=
  { connections := [⟨"u", "binance", true⟩]
    marketPrice := fun s => if s = "BTCUSDT" then some 50000 else none
    gateway := fun _ => .ok ⟨"gw"⟩
    accountBalance := fun _ _ => .ok []
    now := 7 }

/-- A market BUY of 0.01 BTCUSDT. -/
def sampleReq : OrderRequest :=
  { userId := "u", exchangeName := "binance", symbol := "BTCUSDT"
    side := .buy, type := .market, quantity := 1 / 100 }

/-- Stop-loss at entry×0.95 and take-profit at entry×1.15. -/
def sampleCfg : AdvancedOrderConfig :=
  { stopLoss := some ⟨true, 47500, none⟩, takeProfit := some ⟨true, 57500, none⟩ }

/-- The order group persisted by `placeOrder sampleEnv st0 sampleReq
(some sampleCfg)`: primary, stop-loss leg, take-profit leg. -/
def groupSt : St := (placeOrder sampleEnv st0 sampleReq (some sampleCfg)).2

/-- The primary row of the sample group. -/
def samplePrimary : OrderRecord := primaryRow sampleReq 50000 ⟨"gw"⟩ (some sampleCfg) 0

/-- The stop-loss row of the sample group. -/
def sampleSL : OrderRecord :=
  stopLossRow "u" "binance" "BTCUSDT" Side.buy (1 / 100) ⟨true, 47500, none⟩ ⟨"gw"⟩ 1

/-- The take-profit row of the sample group. -/
def sampleTP : OrderRecord :=
  takeProfitRow "u" "binance" "BTCUSDT" Side.buy (1 / 100) ⟨true, 57500, none⟩ ⟨"gw"⟩ 2

/-- Full evaluation of the sample placement: one primary plus two derived
legs persisted, four gateway calls (balance check, primary, two legs). -/
theorem sample_group_eq :
    placeOrder sampleEnv st0 sampleReq (some sampleCfg) =
      ({ success := true, orderId := some 0
         orders := [samplePrimary, sampleSL, sampleTP] },
       { db := [samplePrimary, sampleSL, sampleTP], nextId := 3, gatewayCalls := 4 }) := by
  have hgw : ∀ r, sampleEnv.gateway r = .ok ⟨"gw"⟩ := fun _ => rfl
  rw [@placeOrder_ok sampleEnv st0 sampleReq (some sampleCfg) [] 50000 ⟨"gw"⟩
    (by decide) (by norm_num [sampleReq]) rfl rfl rfl (hgw _)]
  simp only [st0, sampleReq, sampleCfg, placeAdvancedOrders, placeStopLossOrder,
    placeTakeProfitOrder, createOrder, bumpGateway, hgw, samplePrimary, sampleSL,
    sampleTP, primaryRow, stopLossRow, takeProfitRow, Side.flip]
  norm_num

/-- `groupSt` in explicit form. -/
theorem groupSt_eq :
    groupSt = { db := [samplePrimary, sampleSL, sampleTP], nextId := 3, gatewayCalls := 4 } := by
  rw [groupSt, sample_group_eq]

/-! ## Claims -/

/-- C1: placing a primary with stop-loss and take-profit legs and then
cancelling the primary marks only the primary `CANCELLED`: both derived legs
stay `PENDING`, and no call reaches the exchange (the exchange-side cancel
is commented out in the source).  This contradicts the claim that
cancellation propagates to every sibling of the group and happens at the
exchange; there is no group id in the code, and a primary's config blob has
no `type` key for the cascade to match on. -/
theorem cancelOrder_primary_leaves_legs_pending :
    (placeOrder sampleEnv st0 sampleReq (some sampleCfg)).1.orders.map
        (fun o => configType o.config) = [none, some "stop_loss", some "take_profit"] ∧
    (cancelOrder 10 "u" 0 groupSt).1.success = true ∧
    (cancelOrder 10 "u" 0 groupSt).2.db.map (fun o => o.status) =
      [Status.cancelled, Status.pending, Status.pending] ∧
    (cancelOrder 10 "u" 0 groupSt).2.gatewayCalls = groupSt.gatewayCalls := by
  rw [sample_group_eq, groupSt_eq]
  decide

/-- C4: `placeOrder` aborts before any Exchange Gateway call both when the
quantity is nonpositive (validation error result, state untouched) and when
the `(user, exchange)` pair has no active connection (the dedicated
no-active-connection error, state untouched). -/
theorem placeOrder_invalid_no_gateway (env : Env) (st : St) (req : OrderRequest)
    (config : Option AdvancedOrderConfig) :
    (req.quantity ≤ 0 →
      (placeOrder env st req config).1.success = false ∧
      (placeOrder env st req config).2 = st) ∧
    ((env.connections.any fun c =>
        c.userId = req.userId && c.exchangeName = req.exchangeName && c.isActive) = false →
      (placeOrder env st req config).1 =
        { success := false, error := some "No active connection to exchange" } ∧
      (placeOrder env st req config).2 = st) := by
  unfold placeOrder validateOrder
  refine ⟨fun hq => ?_, fun hc => ?_⟩
  · cases hc : (env.connections.any fun c =>
        c.userId = req.userId && c.exchangeName = req.exchangeName && c.isActive) with
    | false => simp [hc]
    | true => simp [hc, hq]
  · simp [hc]

/-- An environment with no exchange connections at all. -/
def noConnEnv : Env :=
  { connections := []
    marketPrice := fun _ => none
    gateway := fun _ => .ok ⟨"gw"⟩
    accountBalance := fun _ _ => .ok []
    now := 7 }

/-- A request with nonpositive quantity. -/
def badQtyReq : OrderRequest :=
  { userId := "u", exchangeName := "binance", symbol := "BTCUSDT"
    side := .buy, type := .market, quantity := -1 }

/-- Witness for C4 at a concrete request with quantity −1 and no active
connection. -/
theorem placeOrder_invalid_no_gateway_witness :
    ((placeOrder noConnEnv st0 badQtyReq none).1.success = false ∧
      (placeOrder noConnEnv st0 badQtyReq none).2 = st0) ∧
    ((placeOrder noConnEnv st0 badQtyReq none).1 =
        { success := false, error := some "No active connection to exchange" } ∧
      (placeOrder noConnEnv st0 badQtyReq none).2 = st0) :=
  ⟨(placeOrder_invalid_no_gateway noConnEnv st0 badQtyReq none).1
      (by norm_num [badQtyReq]),
   (placeOrder_invalid_no_gateway noConnEnv st0 badQtyReq none).2 (by decide)⟩

/-- C10: with a trailing stop enabled, the trailing leg is persisted purely
locally: opposite side, type `STOP`, price `0`, empty exchange data, a
synthetic `trailing_${Date.now()}` id (all inside `trailingStopRow`), and
the only gateway calls of the whole placement are the balance check and the
primary — the trailing leg itself makes none, whatever exchange is named. -/
theorem placeOrder_trailing_stop_local (env : Env) (st : St) (req : OrderRequest)
    (tsc : TrailingStopConfig) (bals : List BalanceRec) (P : ℚ) (resp : GatewayResponse)
    (hconn : (env.connections.any fun c =>
      c.userId = req.userId && c.exchangeName = req.exchangeName && c.isActive) = true)
    (hq : 0 < req.quantity)
    (htype : req.type = .market)
    (hmp : env.marketPrice req.symbol = some P)
    (hbal : env.accountBalance req.exchangeName req.userId = .ok bals)
    (hgwp : env.gateway (primaryRequest req P) = .ok resp)
    (hts : tsc.enabled = true) :
    placeOrder env st req (some { trailingStop := some tsc }) =
      (let row := primaryRow req P resp (some { trailingStop := some tsc }) st.nextId
       let ts := trailingStopRow env req.userId req.exchangeName req.symbol req.side
         req.quantity tsc (st.nextId + 1)
       ({ success := true, orderId := some st.nextId, orders := [row, ts] },
        { db := st.db ++ [row, ts], nextId := st.nextId + 2
          gatewayCalls := st.gatewayCalls + 2 })) := by
  rw [placeOrder_ok hconn hq htype hmp hbal hgwp]
  simp [placeAdvancedOrders, hts, placeTrailingStopOrder_eq, Nat.add_assoc]

/-- A trailing-stop configuration of distance 500. -/
def sampleTrail : TrailingStopConfig := ⟨true, 500, none⟩

/-- Witness for C10: the concrete placement carries the locally fabricated
trailing leg and exactly two gateway calls. -/
theorem placeOrder_trailing_stop_local_witness :
    placeOrder sampleEnv st0 sampleReq (some { trailingStop := some sampleTrail }) =
      (let row := primaryRow sampleReq 50000 ⟨"gw"⟩
        (some { trailingStop := some sampleTrail }) 0
       let ts := trailingStopRow sampleEnv "u" "binance" "BTCUSDT" Side.buy (1 / 100)
         sampleTrail 1
       ({ success := true, orderId := some 0, orders := [row, ts] },
        { db := [row, ts], nextId := 2, gatewayCalls := 2 })) := by
  have h := placeOrder_trailing_stop_local sampleEnv st0 sampleReq sampleTrail []
    50000 ⟨"gw"⟩ (by decide) (by norm_num [sampleReq]) rfl rfl rfl rfl rfl
  simpa [st0, sampleReq] using h

/-- Full reduction of `placeOrder` with stop-loss and take-profit enabled and
every gateway call succeeding: three rows persisted, four gateway calls. -/
theorem placeOrder_slTp_eq (env : Env) (st : St) (req : OrderRequest)
    (slc : StopLossConfig) (tpc : TakeProfitConfig) (bals : List BalanceRec)
    (P : ℚ) (respP respS respT : GatewayResponse)
    (hconn : (env.connections.any fun c =>
      c.userId = req.userId && c.exchangeName = req.exchangeName && c.isActive) = true)
    (hq : 0 < req.quantity)
    (htype : req.type = .market)
    (hmp : env.marketPrice req.symbol = some P)
    (hbal : env.accountBalance req.exchangeName req.userId = .ok bals)
    (hgwp : env.gateway (primaryRequest req P) = .ok respP)
    (hgws : env.gateway (stopLossRequest req.userId req.exchangeName req.symbol
      req.side req.quantity slc) = .ok respS)
    (hgwt : env.gateway (takeProfitRequest req.userId req.exchangeName req.symbol
      req.side req.quantity tpc) = .ok respT)
    (hsl : slc.enabled = true) (htp : tpc.enabled = true) :
    placeOrder env st req (some { stopLoss := some slc, takeProfit := some tpc }) =
      (let row := primaryRow req P respP
        (some { stopLoss := some slc, takeProfit := some tpc }) st.nextId
       let sl := stopLossRow req.userId req.exchangeName req.symbol req.side
         req.quantity slc respS (st.nextId + 1)
       let tp := takeProfitRow req.userId req.exchangeName req.symbol req.side
         req.quantity tpc respT (st.nextId + 2)
       ({ success := true, orderId := some st.nextId, orders := [row, sl, tp] },
        { db := st.db ++ [row, sl, tp], nextId := st.nextId + 3
          gatewayCalls := st.gatewayCalls + 4 })) := by
  rw [placeOrder_ok hconn hq htype hmp hbal hgwp]
  simp [placeAdvancedOrders, hsl, htp, placeStopLossOrder_ok hgws,
    placeTakeProfitOrder_ok hgwt, Nat.add_assoc]

/-- C2 (amended): with stop-loss and take-profit configured, `placeOrder`
persists exactly 3 rows — the primary plus two derived legs tagged with
their intent (`config.type`) — all sharing the request's user and symbol;
the legs are linked to the primary only by those fields and their tags, not
by any group id. -/
theorem placeOrder_three_rows_tagged (env : Env) (st : St) (req : OrderRequest)
    (slc : StopLossConfig) (tpc : TakeProfitConfig) (bals : List BalanceRec)
    (P : ℚ) (respP respS respT : GatewayResponse)
    (hconn : (env.connections.any fun c =>
      c.userId = req.userId && c.exchangeName = req.exchangeName && c.isActive) = true)
    (hq : 0 < req.quantity)
    (htype : req.type = .market)
    (hmp : env.marketPrice req.symbol = some P)
    (hbal : env.accountBalance req.exchangeName req.userId = .ok bals)
    (hgwp : env.gateway (primaryRequest req P) = .ok respP)
    (hgws : env.gateway (stopLossRequest req.userId req.exchangeName req.symbol
      req.side req.quantity slc) = .ok respS)
    (hgwt : env.gateway (takeProfitRequest req.userId req.exchangeName req.symbol
      req.side req.quantity tpc) = .ok respT)
    (hsl : slc.enabled = true) (htp : tpc.enabled = true) :
    ((placeOrder env st req (some { stopLoss := some slc, takeProfit := some tpc })).1.orders.map
        fun o => (o.userId, o.symbol, configType o.config)) =
      [(req.userId, req.symbol, none),
       (req.userId, req.symbol, some "stop_loss"),
       (req.userId, req.symbol, some "take_profit")] ∧
    ((placeOrder env st req (some { stopLoss := some slc, takeProfit := some tpc })).1.orders.map
        fun o => (o.side, o.type, o.price)) =
      [(req.side, OrderType.market, some P),
       (req.side.flip, OrderType.stopLimit, some slc.price),
       (req.side.flip, OrderType.limit, some tpc.price)] ∧
    (placeOrder env st req (some { stopLoss := some slc, takeProfit := some tpc })).2.db =
      st.db ++ (placeOrder env st req
        (some { stopLoss := some slc, takeProfit := some tpc })).1.orders := by
  rw [placeOrder_slTp_eq env st req slc tpc bals P respP respS respT hconn hq htype
    hmp hbal hgwp hgws hgwt hsl htp]
  simp [primaryRow, stopLossRow, takeProfitRow, configType]

/-- Witness for the amended C2 at the sample fixtures. -/
theorem placeOrder_three_rows_tagged_witness :
    ((placeOrder sampleEnv st0 sampleReq
        (some { stopLoss := some ⟨true, 47500, none⟩
                takeProfit := some ⟨true, 57500, none⟩ })).1.orders.map
        fun o => (o.userId, o.symbol, configType o.config)) =
      [("u", "BTCUSDT", none),
       ("u", "BTCUSDT", some "stop_loss"),
       ("u", "BTCUSDT", some "take_profit")] := by
  have h := (placeOrder_three_rows_tagged sampleEnv st0 sampleReq
    ⟨true, 47500, none⟩ ⟨true, 57500, none⟩ [] 50000 ⟨"gw"⟩ ⟨"gw"⟩ ⟨"gw"⟩
    (by decide) (by norm_num [sampleReq]) rfl rfl rfl rfl rfl rfl rfl rfl).1
  simpa [sampleReq] using h

/-- Like `sampleEnv` but the gateway names the primary order `prim-A`. -/
def groupEnvA : Env :=
  { sampleEnv with
    gateway := fun r => .ok ⟨if r.type = .market then "prim-A" else "leg"⟩ }

/-- Like `sampleEnv` but the gateway names the primary order `prim-B`. -/
def groupEnvB : Env :=
  { sampleEnv with
    gateway := fun r => .ok ⟨if r.type = .market then "prim-B" else "leg"⟩ }

/-- C2 counterexample: two placements whose primaries are distinct (so, if
group ids existed, their groups would be distinct) persist bitwise-identical
derived legs: no field of a derived leg records the primary's identity, so
the legs carry no group id of their primary. -/
theorem placeOrder_legs_carry_no_group_id :
    (placeOrder groupEnvA st0 sampleReq (some sampleCfg)).1.orders.drop 1 =
      (placeOrder groupEnvB st0 sampleReq (some sampleCfg)).1.orders.drop 1 ∧
    (placeOrder groupEnvA st0 sampleReq (some sampleCfg)).1.orders.take 1 ≠
      (placeOrder groupEnvB st0 sampleReq (some sampleCfg)).1.orders.take 1 := by
  have hA := placeOrder_slTp_eq groupEnvA st0 sampleReq ⟨true, 47500, none⟩
    ⟨true, 57500, none⟩ [] 50000 ⟨"prim-A"⟩ ⟨"leg"⟩ ⟨"leg"⟩
    (by decide) (by norm_num [sampleReq]) rfl rfl rfl rfl rfl rfl rfl rfl
  have hB := placeOrder_slTp_eq groupEnvB st0 sampleReq ⟨true, 47500, none⟩
    ⟨true, 57500, none⟩ [] 50000 ⟨"prim-B"⟩ ⟨"leg"⟩ ⟨"leg"⟩
    (by decide) (by norm_num [sampleReq]) rfl rfl rfl rfl rfl rfl rfl rfl
  rw [show sampleCfg =
      { stopLoss := some ⟨true, 47500, none⟩, takeProfit := some ⟨true, 57500, none⟩ }
    from rfl, hA, hB]
  refine ⟨rfl, ?_⟩
  simp [primaryRow]

/-- Full reduction of `placeOrder` with stop-loss and take-profit enabled
where the take-profit placement throws at the gateway: the failed leg is
skipped, everything placed before it stays. -/
theorem placeOrder_slTp_tpFail_eq (env : Env) (st : St) (req : OrderRequest)
    (slc : StopLossConfig) (tpc : TakeProfitConfig) (bals : List BalanceRec)
    (P : ℚ) (respP respS : GatewayResponse) (e : String)
    (hconn : (env.connections.any fun c =>
      c.userId = req.userId && c.exchangeName = req.exchangeName && c.isActive) = true)
    (hq : 0 < req.quantity)
    (htype : req.type = .market)
    (hmp : env.marketPrice req.symbol = some P)
    (hbal : env.accountBalance req.exchangeName req.userId = .ok bals)
    (hgwp : env.gateway (primaryRequest req P) = .ok respP)
    (hgws : env.gateway (stopLossRequest req.userId req.exchangeName req.symbol
      req.side req.quantity slc) = .ok respS)
    (hgwt : env.gateway (takeProfitRequest req.userId req.exchangeName req.symbol
      req.side req.quantity tpc) = .error e)
    (hsl : slc.enabled = true) (htp : tpc.enabled = true) :
    placeOrder env st req (some { stopLoss := some slc, takeProfit := some tpc }) =
      (let row := primaryRow req P respP
        (some { stopLoss := some slc, takeProfit := some tpc }) st.nextId
       let sl := stopLossRow req.userId req.exchangeName req.symbol req.side
         req.quantity slc respS (st.nextId + 1)
       ({ success := true, orderId := some st.nextId, orders := [row, sl] },
        { db := st.db ++ [row, sl], nextId := st.nextId + 2
          gatewayCalls := st.gatewayCalls + 4 })) := by
  rw [placeOrder_ok hconn hq htype hmp hbal hgwp]
  simp [placeAdvancedOrders, hsl, htp, placeStopLossOrder_ok hgws,
    placeTakeProfitOrder_fail hgwt, bumpGateway, Nat.add_assoc]

/-- C3 (amended): when the take-profit leg fails at the gateway, the earlier
stop-loss leg and the primary are not rolled back — they remain in the
result and the database — but the failure itself is invisible in the
returned value: `success` is `true`, `error` is empty, and the failed leg
is simply missing from the list. -/
theorem placeOrder_leg_failure_no_rollback (env : Env) (st : St) (req : OrderRequest)
    (slc : StopLossConfig) (tpc : TakeProfitConfig) (bals : List BalanceRec)
    (P : ℚ) (respP respS : GatewayResponse) (e : String)
    (hconn : (env.connections.any fun c =>
      c.userId = req.userId && c.exchangeName = req.exchangeName && c.isActive) = true)
    (hq : 0 < req.quantity)
    (htype : req.type = .market)
    (hmp : env.marketPrice req.symbol = some P)
    (hbal : env.accountBalance req.exchangeName req.userId = .ok bals)
    (hgwp : env.gateway (primaryRequest req P) = .ok respP)
    (hgws : env.gateway (stopLossRequest req.userId req.exchangeName req.symbol
      req.side req.quantity slc) = .ok respS)
    (hgwt : env.gateway (takeProfitRequest req.userId req.exchangeName req.symbol
      req.side req.quantity tpc) = .error e)
    (hsl : slc.enabled = true) (htp : tpc.enabled = true) :
    (placeOrder env st req (some { stopLoss := some slc, takeProfit := some tpc })).1.success
        = true ∧
    (placeOrder env st req
        (some { stopLoss := some slc, takeProfit := some tpc })).1.error = none ∧
    ((placeOrder env st req (some { stopLoss := some slc, takeProfit := some tpc })).1.orders.map
        fun o => configType o.config) = [none, some "stop_loss"] ∧
    (placeOrder env st req (some { stopLoss := some slc, takeProfit := some tpc })).2.db =
      st.db ++ (placeOrder env st req
        (some { stopLoss := some slc, takeProfit := some tpc })).1.orders := by
  rw [placeOrder_slTp_tpFail_eq env st req slc tpc bals P respP respS e hconn hq htype
    hmp hbal hgwp hgws hgwt hsl htp]
  simp [primaryRow, stopLossRow, configType]

/-- Like `sampleEnv` but every `LIMIT` placement (the take-profit leg)
throws at the gateway. -/
def tpFailEnv : Env :=
  { sampleEnv with
    gateway := fun r =>
      if r.type = .limit then .error "Insufficient funds" else .ok ⟨"gw"⟩ }

/-- Witness for the amended C3 at the sample fixtures with the take-profit
leg failing. -/
theorem placeOrder_leg_failure_no_rollback_witness :
    (placeOrder tpFailEnv st0 sampleReq
        (some { stopLoss := some ⟨true, 47500, none⟩
                takeProfit := some ⟨true, 57500, none⟩ })).1.success = true ∧
    ((placeOrder tpFailEnv st0 sampleReq
        (some { stopLoss := some ⟨true, 47500, none⟩
                takeProfit := some ⟨true, 57500, none⟩ })).1.orders.map
        fun o => configType o.config) = [none, some "stop_loss"] :=
  have h := placeOrder_leg_failure_no_rollback tpFailEnv st0 sampleReq
    ⟨true, 47500, none⟩ ⟨true, 57500, none⟩ [] 50000 ⟨"gw"⟩ ⟨"gw"⟩ "Insufficient funds"
    (by decide) (by norm_num [sampleReq]) rfl rfl rfl rfl rfl rfl rfl rfl
  ⟨h.1, h.2.2.1⟩

/-- Like `sampleEnv` but every `STOP_LIMIT` placement (the stop-loss leg)
throws at the gateway. -/
def slFailEnv : Env :=
  { sampleEnv with
    gateway := fun r =>
      if r.type = .stopLimit then .error "Insufficient funds" else .ok ⟨"gw"⟩ }

/-- Full reduction of `placeOrder` with stop-loss and take-profit enabled
where the stop-loss placement throws at the gateway. -/
theorem placeOrder_slTp_slFail_eq (env : Env) (st : St) (req : OrderRequest)
    (slc : StopLossConfig) (tpc : TakeProfitConfig) (bals : List BalanceRec)
    (P : ℚ) (respP respT : GatewayResponse) (e : String)
    (hconn : (env.connections.any fun c =>
      c.userId = req.userId && c.exchangeName = req.exchangeName && c.isActive) = true)
    (hq : 0 < req.quantity)
    (htype : req.type = .market)
    (hmp : env.marketPrice req.symbol = some P)
    (hbal : env.accountBalance req.exchangeName req.userId = .ok bals)
    (hgwp : env.gateway (primaryRequest req P) = .ok respP)
    (hgws : env.gateway (stopLossRequest req.userId req.exchangeName req.symbol
      req.side req.quantity slc) = .error e)
    (hgwt : env.gateway (takeProfitRequest req.userId req.exchangeName req.symbol
      req.side req.quantity tpc) = .ok respT)
    (hsl : slc.enabled = true) (htp : tpc.enabled = true) :
    placeOrder env st req (some { stopLoss := some slc, takeProfit := some tpc }) =
      (let row := primaryRow req P respP
        (some { stopLoss := some slc, takeProfit := some tpc }) st.nextId
       let tp := takeProfitRow req.userId req.exchangeName req.symbol req.side
         req.quantity tpc respT (st.nextId + 1)
       ({ success := true, orderId := some st.nextId, orders := [row, tp] },
        { db := st.db ++ [row, tp], nextId := st.nextId + 2
          gatewayCalls := st.gatewayCalls + 4 })) := by
  rw [placeOrder_ok hconn hq htype hmp hbal hgwp]
  simp [placeAdvancedOrders, hsl, htp, placeStopLossOrder_fail hgws,
    placeTakeProfitOrder_ok hgwt, bumpGateway, Nat.add_assoc]

/-- C3 counterexample: with the stop-loss leg failing at the gateway and the
take-profit succeeding, the returned value is indistinguishable from plain
success — `success = true`, no `error`, and only the primary and the
take-profit listed.  The per-leg failure the claim requires is nowhere in
the result: the failed leg is swallowed (only logged). -/
theorem placeOrder_failed_leg_swallowed :
    (placeOrder slFailEnv st0 sampleReq (some sampleCfg)).1.success = true ∧
    (placeOrder slFailEnv st0 sampleReq (some sampleCfg)).1.error = none ∧
    ((placeOrder slFailEnv st0 sampleReq (some sampleCfg)).1.orders.map
        fun o => configType o.config) = [none, some "take_profit"] := by
  have h := placeOrder_slTp_slFail_eq slFailEnv st0 sampleReq
    ⟨true, 47500, none⟩ ⟨true, 57500, none⟩ [] 50000 ⟨"gw"⟩ ⟨"gw"⟩ "Insufficient funds"
    (by decide) (by norm_num [sampleReq]) rfl rfl rfl rfl rfl rfl rfl rfl
  rw [show sampleCfg =
      { stopLoss := some ⟨true, 47500, none⟩, takeProfit := some ⟨true, 57500, none⟩ }
    from rfl, h]
  simp [primaryRow, takeProfitRow, configType]

/-- The gateway payload of DCA level `i`. -/
def dcaRequest (userId exchangeName symbol : String) (side : Side)
    (quantityPerLevel currentPrice : ℚ) (cfg : DcaConfig) (i : ℕ) : GatewayRequest :=
  { exchangeName, userId, symbol, side
    type := .limit
    quantity := quantityPerLevel
    price := some (dcaPrice currentPrice side cfg i)
    stopPrice := none
    timeInForce := .gtc
    reduceOnly := none
    postOnly := none }

/-- The persisted row of DCA level `i`. -/
def dcaRow (userId exchangeName symbol : String) (side : Side)
    (quantityPerLevel currentPrice : ℚ) (cfg : DcaConfig) (resp : GatewayResponse)
    (i id : ℕ) : OrderRecord :=
  { id, userId, exchangeName
    exchangeOrderId := resp.orderId
    symbol, side
    type := .limit
    quantity := quantityPerLevel
    price := some (dcaPrice currentPrice side cfg i)
    status := .pending
    filledQuantity := 0
    averagePrice := none
    exchangeData := some resp
    config := .dcaLeg i cfg.levels cfg }

/-- The rows a fully successful DCA ladder persists for the given levels,
with ids counting up from `n`. -/
def dcaRowsFrom (userId exchangeName symbol : String) (side : Side)
    (quantityPerLevel currentPrice : ℚ) (cfg : DcaConfig)
    (g : GatewayRequest → GatewayResponse) : List ℕ → ℕ → List OrderRecord
  | [], _ => []
  | i :: rest, n =>
      dcaRow userId exchangeName symbol side quantityPerLevel currentPrice cfg
        (g (dcaRequest userId exchangeName symbol side quantityPerLevel currentPrice cfg i))
        i n ::
      dcaRowsFrom userId exchangeName symbol side quantityPerLevel currentPrice cfg g
        rest (n + 1)

/-- Reduction of the DCA loop when every gateway call succeeds. -/
theorem placeDCAOrdersLoop_ok (env : Env) (userId exchangeName symbol : String)
    (side : Side) (quantityPerLevel currentPrice : ℚ) (cfg : DcaConfig)
    (g : GatewayRequest → GatewayResponse)
    (hgw : ∀ r, env.gateway r = .ok (g r)) :
    ∀ (ls : List ℕ) (st : St),
      placeDCAOrdersLoop env userId exchangeName symbol side quantityPerLevel
        currentPrice cfg ls st =
        (dcaRowsFrom userId exchangeName symbol side quantityPerLevel currentPrice
          cfg g ls st.nextId,
         { db := st.db ++ dcaRowsFrom userId exchangeName symbol side quantityPerLevel
             currentPrice cfg g ls st.nextId
           nextId := st.nextId + ls.length
           gatewayCalls := st.gatewayCalls + ls.length }) := by
  intro ls
  induction ls with
  | nil => intro st; simp [placeDCAOrdersLoop, dcaRowsFrom]
  | cons i rest ih =>
      intro st
      simp only [placeDCAOrdersLoop, hgw, bumpGateway, createOrder]
      rw [ih]
      simp [dcaRowsFrom, dcaRow, dcaRequest, List.append_assoc, Nat.add_assoc,
        Nat.add_comm 1 rest.length, Nat.succ_eq_add_one]

/-- With a fixed step (no `stepPercentage`), the ladder price is
`currentPrice ∓ stepSize·i`. -/
theorem dcaPrice_fixed_step (currentPrice : ℚ) (side : Side) (cfg : DcaConfig)
    (i : ℕ) (hsp : cfg.stepPercentage = none) :
    dcaPrice currentPrice side cfg i =
      (match side with
       | .buy => currentPrice - cfg.stepSize * i
       | .sell => currentPrice + cfg.stepSize * i) := by
  cases side <;> simp [dcaPrice, hsp]

/-- C5: with only a DCA config (N levels, fixed step, no percentage)
enabled and every gateway call succeeding, `placeOrder` persists the primary
plus exactly N `LIMIT` legs of the primary's side, each of quantity
`totalQuantity/N`, leg `i` priced `currentPrice − stepSize·i` for BUY
(`+` for SELL) and tagged `dca` with its level and total. -/
theorem placeOrder_dca_ladder (env : Env) (st : St) (req : OrderRequest)
    (dcfg : DcaConfig) (bals : List BalanceRec) (P : ℚ) (respP : GatewayResponse)
    (g : GatewayRequest → GatewayResponse)
    (hconn : (env.connections.any fun c =>
      c.userId = req.userId && c.exchangeName = req.exchangeName && c.isActive) = true)
    (hq : 0 < req.quantity)
    (htype : req.type = .market)
    (hmp : env.marketPrice req.symbol = some P)
    (hbal : env.accountBalance req.exchangeName req.userId = .ok bals)
    (hgwp : env.gateway (primaryRequest req P) = .ok respP)
    (hgw : ∀ r, env.gateway r = .ok (g r))
    (hdca : dcfg.enabled = true)
    (hsp : dcfg.stepPercentage = none) :
    ((placeOrder env st req (some { dcaConfig := some dcfg })).1.orders.map
        fun o => (o.type, o.side, o.quantity, o.price, o.config)) =
      (OrderType.market, req.side, req.quantity, some P,
        StoredConfig.advanced { dcaConfig := some dcfg }) ::
      (List.range dcfg.levels).map (fun (i : ℕ) =>
        (OrderType.limit, req.side, req.quantity / (dcfg.levels : ℚ),
         some (match req.side with
               | .buy => P - dcfg.stepSize * ((i + 1 : ℕ) : ℚ)
               | .sell => P + dcfg.stepSize * ((i + 1 : ℕ) : ℚ)),
         StoredConfig.dcaLeg (i + 1) dcfg.levels dcfg)) := by
  rw [placeOrder_ok hconn hq htype hmp hbal hgwp]
  simp only [placeAdvancedOrders, hdca, placeDCAOrders, hmp,
    placeDCAOrdersLoop_ok env req.userId req.exchangeName req.symbol req.side
      (req.quantity / (dcfg.levels : ℚ)) P dcfg g hgw, if_true]
  simp only [List.map_cons, primaryRow, List.cons.injEq]
  refine ⟨rfl, ?_⟩
  have hmap : ∀ (ls : List ℕ) (n : ℕ),
      ((dcaRowsFrom req.userId req.exchangeName req.symbol req.side
          (req.quantity / (dcfg.levels : ℚ)) P dcfg g ls n).map
        fun o => (o.type, o.side, o.quantity, o.price, o.config)) =
      ls.map (fun i =>
        (OrderType.limit, req.side, req.quantity / (dcfg.levels : ℚ),
         some (dcaPrice P req.side dcfg i), StoredConfig.dcaLeg i dcfg.levels dcfg)) := by
    intro ls
    induction ls with
    | nil => intro n; simp [dcaRowsFrom]
    | cons i rest ih => intro n; simp [dcaRowsFrom, dcaRow, ih]
  simp only [Option.toList, List.nil_append]
  rw [hmap, List.map_map]
  refine List.map_congr_left fun i _ => ?_
  cases req.side <;> simp [dcaPrice, hsp]

/-- The C5 scenario request: market BUY of 0.3. -/
def dcaReq : OrderRequest :=
  { userId := "u", exchangeName := "binance", symbol := "BTCUSDT"
    side := .buy, type := .market, quantity := 3 / 10 }

/-- The C5 scenario config: 3 levels, step 100. -/
def dcaCfg : DcaConfig := ⟨true, 3, 100, none⟩

/-- Witness for C5 at the spec's scenario: DCA levels 3, step 100, BUY 0.3
at market price 50000 yields three LIMIT legs of 0.1 each at
49900/49800/49700, tagged with level and total. -/
theorem placeOrder_dca_ladder_witness :
    ((placeOrder sampleEnv st0 dcaReq (some { dcaConfig := some dcaCfg })).1.orders.map
        fun o => (o.type, o.side, o.quantity, o.price, o.config)) =
      [(OrderType.market, Side.buy, 3 / 10, some 50000,
         StoredConfig.advanced { dcaConfig := some dcaCfg }),
       (OrderType.limit, Side.buy, 1 / 10, some 49900, StoredConfig.dcaLeg 1 3 dcaCfg),
       (OrderType.limit, Side.buy, 1 / 10, some 49800, StoredConfig.dcaLeg 2 3 dcaCfg),
       (OrderType.limit, Side.buy, 1 / 10, some 49700, StoredConfig.dcaLeg 3 3 dcaCfg)] := by
  have h := placeOrder_dca_ladder sampleEnv st0 dcaReq dcaCfg [] 50000 ⟨"gw"⟩
    (fun _ => ⟨"gw"⟩) (by decide) (by norm_num [dcaReq]) rfl rfl rfl rfl
    (fun _ => rfl) rfl rfl
  rw [h]
  norm_num [dcaReq, dcaCfg, List.range_succ]

/-- The `currentPosition ? currentPosition.marketValue : 0` of the
rebalance loop. -/
def currentValueOf (positions : List Position) (sym : String) : ℚ :=
  match positions.find? (fun p => p.symbol = sym) with
  | some p => p.marketValue
  | none => 0

/-- The `currentPosition?.currentPrice || 1` divisor of the rebalance
loop. -/
def rebalanceDivisor (positions : List Position) (sym : String) : ℚ :=
  match positions.find? (fun p => p.symbol = sym) with
  | some p => if p.currentPrice = 0 then 1 else p.currentPrice
  | none => 1

/-- The `currentPosition?.exchangeName || 'binance'` of the rebalance
loop. -/
def rebalanceExchange (positions : List Position) (sym : String) : String :=
  match positions.find? (fun p => p.symbol = sym) with
  | some p => if p.exchangeName = "" then "binance" else p.exchangeName
  | none => "binance"

/-- `rebalanceEntry` written through the named helpers. -/
theorem rebalanceEntry_char (userId : String) (totalValue : ℚ)
    (positions : List Position) (entry : String × ℚ) :
    rebalanceEntry userId totalValue positions entry =
      if totalValue * (1 / 100) <
          |totalValue * (entry.2 / 100) - currentValueOf positions entry.1| then
        some
          { userId
            exchangeName := rebalanceExchange positions entry.1
            symbol := entry.1
            side := if 0 < totalValue * (entry.2 / 100) - currentValueOf positions entry.1
              then Side.buy else Side.sell
            type := .market
            quantity := |totalValue * (entry.2 / 100) - currentValueOf positions entry.1| /
              rebalanceDivisor positions entry.1
            rebalanceTarget := entry.2 }
      else none := by
  unfold rebalanceEntry currentValueOf rebalanceDivisor rebalanceExchange
  cases h : positions.find? (fun p => decide (p.symbol = entry.1)) <;> simp [h]

/-- C6 (amended): every proposed order corresponds to a target entry whose
deviation from the target value exceeds 1% of total value, with side decided
by the deviation's sign and quantity `|diff|` divided by the position's
`currentPrice` when a position with nonzero price exists, else `1` (so a
symbol without a position is bought in raw units of `|diff|`); conversely
every above-threshold target entry yields an order, and a portfolio within
1% of target on every entry proposes nothing. -/
theorem rebalancePortfolio_materiality (env : Env) (db : List OrderRecord)
    (userId : String) (target : List (String × ℚ)) :
    (∀ o ∈ (rebalancePortfolio env db userId target).orders,
      (getPortfolioSummary env db userId).totalValue * (1 / 100) <
        |(getPortfolioSummary env db userId).totalValue * (o.rebalanceTarget / 100) -
          currentValueOf (getPortfolioSummary env db userId).positions o.symbol| ∧
      o.side = (if 0 < (getPortfolioSummary env db userId).totalValue *
            (o.rebalanceTarget / 100) -
            currentValueOf (getPortfolioSummary env db userId).positions o.symbol
          then Side.buy else Side.sell) ∧
      o.quantity = |(getPortfolioSummary env db userId).totalValue *
            (o.rebalanceTarget / 100) -
            currentValueOf (getPortfolioSummary env db userId).positions o.symbol| /
          rebalanceDivisor (getPortfolioSummary env db userId).positions o.symbol ∧
      o.exchangeName =
        rebalanceExchange (getPortfolioSummary env db userId).positions o.symbol ∧
      o.type = OrderType.market ∧ o.userId = userId) ∧
    (∀ p ∈ target,
      (getPortfolioSummary env db userId).totalValue * (1 / 100) <
        |(getPortfolioSummary env db userId).totalValue * (p.2 / 100) -
          currentValueOf (getPortfolioSummary env db userId).positions p.1| →
      ∃ o, o ∈ (rebalancePortfolio env db userId target).orders ∧
        o.symbol = p.1 ∧ o.rebalanceTarget = p.2) ∧
    ((∀ p ∈ target,
        |(getPortfolioSummary env db userId).totalValue * (p.2 / 100) -
          currentValueOf (getPortfolioSummary env db userId).positions p.1| ≤
        (getPortfolioSummary env db userId).totalValue * (1 / 100)) →
      (rebalancePortfolio env db userId target).orders = []) := by
  refine ⟨fun o ho => ?_, fun p hp hneed => ?_, fun hall => ?_⟩
  · simp only [rebalancePortfolio, List.mem_filterMap] at ho
    obtain ⟨p, hp, he⟩ := ho
    rw [rebalanceEntry_char] at he
    split at he
    · cases he
      exact ⟨by assumption, rfl, rfl, rfl, rfl, rfl⟩
    · cases he
  · simp only [rebalancePortfolio, List.mem_filterMap]
    have he := rebalanceEntry_char userId (getPortfolioSummary env db userId).totalValue
      (getPortfolioSummary env db userId).positions p
    rw [if_pos hneed] at he
    exact ⟨_, ⟨p, hp, he⟩, rfl, rfl⟩
  · simp only [rebalancePortfolio]
    refine List.filterMap_eq_nil_iff.mpr fun p hp => ?_
    rw [rebalanceEntry_char, if_neg (not_lt.mpr (hall p hp))]

/-- A portfolio environment: one active binance connection holding 1 SOL
priced at 1000, so the portfolio totals 1000. -/
def rebalEnv : Env :=
  { connections := [⟨"u", "binance", true⟩]
    marketPrice := fun s => if s = "SOL/USDT" then some 1000 else none
    gateway := fun _ => .ok ⟨"gw"⟩
    accountBalance := fun _ _ => .ok [⟨"SOL", 1⟩]
    now := 7 }

/-- The single position of `rebalEnv`. -/
def rebalPos : Position :=
  { symbol := "SOL/USDT", quantity := 1, averagePrice := 0, currentPrice := 1000
    marketValue := 1000, unrealizedPnL := 1000, unrealizedPnLPercent := 0
    exchangeName := "binance" }

/-- Evaluation of the portfolio summary of `rebalEnv`. -/
theorem rebalSummary_eq :
    getPortfolioSummary rebalEnv [] "u" =
      { totalValue := 1000, totalCost := 0, totalPnL := 1000, totalPnLPercent := 0
        dayChange := 0, dayChangePercent := 0, positions := [rebalPos]
        exchanges := [("binance", 1000)] } := by
  norm_num [getPortfolioSummary, rebalEnv, processExchangeBalances,
    calculateAveragePrice, rebalPos, List.filterMap_cons, List.filterMap_nil,
    show formatSymbol "SOL" = "SOL/USDT" from by decide]

/-- The rebalance order `rebalEnv` proposes for a 20% target on the absent
symbol `X`: 200 raw units. -/
def xOrder : RebalanceOrder :=
  { userId := "u", exchangeName := "binance", symbol := "X", side := .buy
    type := .market, quantity := 200, rebalanceTarget := 20 }

/-- Evaluation of the proposal for a 20% target on the absent symbol. -/
theorem rebalX_orders_eq :
    (rebalancePortfolio rebalEnv [] "u" [("X", 20)]).orders = [xOrder] := by
  simp only [rebalancePortfolio, rebalSummary_eq, List.filterMap_cons,
    List.filterMap_nil, rebalanceEntry_char]
  norm_num [currentValueOf, rebalanceDivisor, rebalanceExchange, rebalPos, xOrder,
    List.find?, show decide (("SOL/USDT" : String) = "X") = false from by decide]

/-- C6 counterexample: with totalValue 1000, a 20% target on a symbol with
no position and that symbol's market price 50000, the code proposes a BUY of
quantity 200 — `|diff|` divided by the fallback price 1 — while the claim's
`|diff| / currentPrice(X)` is 1/250.  The proposed quantity is not the
claimed one. -/
theorem rebalance_quantity_not_divided_by_price :
    ((rebalancePortfolio rebalEnv [] "u" [("X", 20)]).orders.map fun o => o.quantity)
        = [200] ∧
    specRebalanceEntry (getPortfolioSummary rebalEnv [] "u").totalValue
        (getPortfolioSummary rebalEnv [] "u").positions (fun _ => 50000) ("X", 20) =
      some ("X", Side.buy, 1 / 250) ∧
    ¬ ((200 : ℚ) = 1 / 250) := by
  refine ⟨by rw [rebalX_orders_eq]; norm_num [xOrder], ?_, by norm_num⟩
  rw [rebalSummary_eq]
  norm_num [specRebalanceEntry, rebalPos, List.find?,
    show decide (("SOL/USDT" : String) = "X") = false from by decide]

/-- Witness for the amended C6: the concrete 20%-target-on-absent-symbol
proposal satisfies the characterization (in particular quantity 200 =
|200|/1), and a target already met within 1% proposes zero orders. -/
theorem rebalancePortfolio_materiality_witness :
    ((getPortfolioSummary rebalEnv [] "u").totalValue * (1 / 100) <
        |(getPortfolioSummary rebalEnv [] "u").totalValue * (xOrder.rebalanceTarget / 100) -
          currentValueOf (getPortfolioSummary rebalEnv [] "u").positions xOrder.symbol| ∧
      xOrder.side = (if 0 < (getPortfolioSummary rebalEnv [] "u").totalValue *
            (xOrder.rebalanceTarget / 100) -
            currentValueOf (getPortfolioSummary rebalEnv [] "u").positions xOrder.symbol
          then Side.buy else Side.sell) ∧
      xOrder.quantity = |(getPortfolioSummary rebalEnv [] "u").totalValue *
            (xOrder.rebalanceTarget / 100) -
            currentValueOf (getPortfolioSummary rebalEnv [] "u").positions xOrder.symbol| /
          rebalanceDivisor (getPortfolioSummary rebalEnv [] "u").positions xOrder.symbol ∧
      xOrder.exchangeName =
        rebalanceExchange (getPortfolioSummary rebalEnv [] "u").positions xOrder.symbol ∧
      xOrder.type = OrderType.market ∧ xOrder.userId = "u") ∧
    (rebalancePortfolio rebalEnv [] "u" [("SOL/USDT", 100)]).orders = [] :=
  ⟨(rebalancePortfolio_materiality rebalEnv [] "u" [("X", 20)]).1 xOrder
      (by rw [rebalX_orders_eq]; exact List.mem_singleton.mpr rfl),
   (rebalancePortfolio_materiality rebalEnv [] "u" [("SOL/USDT", 100)]).2.2
      (by
        intro p hp
        rw [List.mem_singleton] at hp
        subst hp
        rw [rebalSummary_eq]
        norm_num [currentValueOf, rebalPos, List.find?,
          show decide (("SOL/USDT" : String) = "SOL/USDT") = true from by decide])⟩

/-- The summary's `totalValue` is by construction the sum of its positions'
market values. -/
theorem getPortfolioSummary_totalValue (env : Env) (db : List OrderRecord)
    (userId : String) :
    (getPortfolioSummary env db userId).totalValue =
      ((getPortfolioSummary env db userId).positions.map fun p => p.marketValue).sum := by
  simp only [getPortfolioSummary]
  split <;> simp

/-- Inserting keeps the same multiset of elements. -/
theorem insertSorted_perm {α : Type} (le : α → α → Bool) (x : α) :
    ∀ l : List α, (insertSorted le x l).Perm (x :: l)
  | [] => .refl _
  | y :: ys => by
      unfold insertSorted
      split
      · exact .refl _
      · exact ((insertSorted_perm le x ys).cons y).trans (List.Perm.swap x y ys)

/-- Sorting keeps the same multiset of elements. -/
theorem sortBy_perm {α : Type} (le : α → α → Bool) :
    ∀ l : List α, (sortBy le l).Perm l
  | [] => .refl _
  | x :: xs => (insertSorted_perm le x (sortBy le xs)).trans ((sortBy_perm le xs).cons x)

/-- The rational value of a finite allocation percentage (`0` for
`NaN`/infinite ones). -/
def ratPerc (a : Allocation) : ℚ :=
  match a.percentage with
  | .fin q => q
  | _ => 0

/-- C9 (amended): when the portfolio's totalValue is positive every
allocation percentage is a finite number and they sum to exactly 100 (so in
particular to 100 ± 0.1); and the allocation list is empty exactly when the
positions list is empty — which is implied by, but not equivalent to,
`totalValue = 0`. -/
theorem getPortfolioAllocation_spec (env : Env) (db : List OrderRecord)
    (userId : String) :
    (0 < (getPortfolioSummary env db userId).totalValue →
      (∀ a ∈ getPortfolioAllocation env db userId, ∃ q : ℚ, a.percentage = JsVal.fin q) ∧
      ((getPortfolioAllocation env db userId).map ratPerc).sum = 100) ∧
    (getPortfolioAllocation env db userId = [] ↔
      (getPortfolioSummary env db userId).positions = []) := by
  have halloc : (getPortfolioSummary env db userId).positions ≠ [] →
      getPortfolioAllocation env db userId =
        sortBy allocBefore ((getPortfolioSummary env db userId).positions.map fun p =>
          { symbol := p.symbol
            percentage := jsMul (jsDiv (fin p.marketValue)
              (fin (getPortfolioSummary env db userId).totalValue)) (fin 100)
            value := p.marketValue
            quantity := p.quantity }) := by
    intro hne
    unfold getPortfolioAllocation
    rw [if_neg]
    simp [List.isEmpty_iff, hne]
  constructor
  · intro htv
    have hne : (getPortfolioSummary env db userId).positions ≠ [] := by
      intro h0
      rw [getPortfolioSummary_totalValue, h0] at htv
      exact absurd htv (by norm_num)
    have hperm := sortBy_perm allocBefore
      ((getPortfolioSummary env db userId).positions.map fun p =>
        { symbol := p.symbol
          percentage := jsMul (jsDiv (fin p.marketValue)
            (fin (getPortfolioSummary env db userId).totalValue)) (fin 100)
          value := p.marketValue
          quantity := p.quantity })
    rw [halloc hne]
    constructor
    · intro a ha
      have ha2 := hperm.mem_iff.mp ha
      rw [List.mem_map] at ha2
      obtain ⟨p, _, rfl⟩ := ha2
      exact ⟨p.marketValue / (getPortfolioSummary env db userId).totalValue * 100,
        by simp [jsDiv, jsMul, htv.ne']⟩
    · rw [(hperm.map ratPerc).sum_eq, List.map_map]
      have hmap : (ratPerc ∘ fun p : Position =>
          ({ symbol := p.symbol
             percentage := jsMul (jsDiv (fin p.marketValue)
               (fin (getPortfolioSummary env db userId).totalValue)) (fin 100)
             value := p.marketValue
             quantity := p.quantity } : Allocation)) =
          fun p : Position =>
            p.marketValue * (100 / (getPortfolioSummary env db userId).totalValue) := by
        funext p
        simp [ratPerc, jsDiv, jsMul, htv.ne']
        ring
      rw [hmap, List.sum_map_mul_right, ← getPortfolioSummary_totalValue,
        mul_div_cancel₀ 100 htv.ne']
  · constructor
    · intro h
      by_contra hne
      have hlen := congrArg List.length h
      rw [halloc hne, (sortBy_perm _ _).length_eq, List.length_map] at hlen
      exact hne (List.eq_nil_of_length_eq_zero hlen)
    · intro h
      unfold getPortfolioAllocation
      rw [if_pos]
      simp [h]

/-- An environment whose only asset has no market price: the position is
kept with `currentPrice = 0`, so the portfolio totals 0 with one position. -/
def zeroEnv : Env :=
  { connections := [⟨"u", "binance", true⟩]
    marketPrice := fun _ => none
    gateway := fun _ => .ok ⟨"gw"⟩
    accountBalance := fun _ _ => .ok [⟨"FOO", 1⟩]
    now := 7 }

/-- C9 counterexample: with one position of market value 0 the summary's
`totalValue` is 0, yet `getPortfolioAllocation` is not empty — it returns
one entry whose percentage is the `NaN` of `0/0` — because the code tests
`positions.length === 0`, not `totalValue === 0`. -/
theorem getPortfolioAllocation_nonempty_at_zero_total :
    (getPortfolioSummary zeroEnv [] "u").totalValue = 0 ∧
    getPortfolioAllocation zeroEnv [] "u" =
      [{ symbol := "FOO/USDT", percentage := JsVal.nan, value := 0, quantity := 1 }] := by
  have hsum : getPortfolioSummary zeroEnv [] "u" =
      { totalValue := 0, totalCost := 0, totalPnL := 0, totalPnLPercent := 0
        dayChange := 0, dayChangePercent := 0
        positions := [{ symbol := "FOO/USDT", quantity := 1, averagePrice := 0
                        currentPrice := 0, marketValue := 0, unrealizedPnL := 0
                        unrealizedPnLPercent := 0, exchangeName := "binance" }]
        exchanges := [("binance", 0)] } := by
    norm_num [getPortfolioSummary, zeroEnv, processExchangeBalances,
      calculateAveragePrice, List.filterMap_cons, List.filterMap_nil,
      show formatSymbol "FOO" = "FOO/USDT" from by decide]
  refine ⟨by rw [hsum], ?_⟩
  unfold getPortfolioAllocation
  rw [hsum]
  norm_num [sortBy, insertSorted, jsDiv, jsMul]

/-- Witness for the amended C9: the concrete 1000-value portfolio's single
allocation percentage sums to 100, and a connectionless user's allocation is
empty. -/
theorem getPortfolioAllocation_spec_witness :
    ((getPortfolioAllocation rebalEnv [] "u").map ratPerc).sum = 100 ∧
    getPortfolioAllocation noConnEnv [] "u" = [] :=
  ⟨((getPortfolioAllocation_spec rebalEnv [] "u").1
      (by rw [rebalSummary_eq]; norm_num)).2,
   (getPortfolioAllocation_spec noConnEnv [] "u").2.mpr
      (by norm_num [getPortfolioSummary, noConnEnv])⟩

/-! ## JsVal computation lemmas -/

theorem jsDiv_fin_fin (a b : ℚ) (hb : b ≠ 0) :
    jsDiv (fin a) (fin b) = fin (a / b) := by
  simp [jsDiv, hb]

theorem jsDiv_fin_zero_pos (a : ℚ) (ha : 0 < a) :
    jsDiv (fin a) (fin 0) = JsVal.inf := by
  simp [jsDiv, ha, ha.ne']

theorem jsAdd_fin_fin (a b : ℚ) : jsAdd (fin a) (fin b) = fin (a + b) := rfl

theorem jsAdd_fin_inf (a : ℚ) : jsAdd (fin a) JsVal.inf = JsVal.inf := rfl

theorem jsDiv_fin_inf (a : ℚ) : jsDiv (fin a) JsVal.inf = fin 0 := rfl

theorem jsSub_fin_fin (a b : ℚ) : jsSub (fin a) (fin b) = fin (a - b) := by
  simp [jsSub, jsAdd, jsNeg, sub_eq_add_neg]

/-! ## RSI window lemmas -/

/-- A lookback window always has the full `period` of changes. -/
theorem windowChanges_ne_nil (prices : List ℚ) (i : ℕ) :
    windowChanges prices 14 i ≠ [] := by
  simp [windowChanges, List.range_succ]

/-- All-zero window (every change flat): the RSI value is `NaN`, from the
JavaScript `0/0`. -/
theorem rsiAt_all_zero (prices : List ℚ) (i : ℕ)
    (h : ∀ c ∈ windowChanges prices 14 i, c = 0) :
    rsiAt prices 14 i = JsVal.nan := by
  have hg : (windowChanges prices 14 i).filter (fun c => decide (0 < c)) = [] :=
    List.filter_eq_nil_iff.mpr fun c hc => by simp [h c hc]
  have hl : ∀ x ∈ ((windowChanges prices 14 i).filter
      (fun c => !decide (0 < c))).map (fun c => |c|), x = 0 := by
    intro x hx
    rw [List.mem_map] at hx
    obtain ⟨c, hc, rfl⟩ := hx
    rw [List.mem_filter] at hc
    simp [h c hc.1]
  have hlsum : (((windowChanges prices 14 i).filter
      (fun c => !decide (0 < c))).map (fun c => |c|)).sum = 0 :=
    List.sum_eq_zero hl
  simp only [rsiAt]
  rw [hg, hlsum]
  norm_num [jsDiv, jsAdd, jsSub, jsNeg]

/-- All-gain window: `meanLoss = 0`, the JavaScript `x/0` is `Infinity`, and
the RSI value is exactly 100. -/
theorem rsiAt_all_gain (prices : List ℚ) (i : ℕ)
    (h : ∀ c ∈ windowChanges prices 14 i, 0 < c) :
    rsiAt prices 14 i = fin 100 := by
  have hgains : (windowChanges prices 14 i).filter (fun c => decide (0 < c)) =
      windowChanges prices 14 i :=
    List.filter_eq_self.mpr fun c hc => by simp [h c hc]
  have hloss : (windowChanges prices 14 i).filter (fun c => !decide (0 < c)) = [] :=
    List.filter_eq_nil_iff.mpr fun c hc => by simp [h c hc]
  have hG : 0 < (windowChanges prices 14 i).sum :=
    List.sum_pos _ h (windowChanges_ne_nil prices i)
  have hG14 : 0 < (windowChanges prices 14 i).sum / ((14 : ℕ) : ℚ) :=
    div_pos hG (by norm_num)
  simp only [rsiAt]
  rw [hgains, hloss]
  simp only [List.map_nil, List.sum_nil]
  rw [jsDiv_fin_fin _ _ (by norm_num : ((14 : ℕ) : ℚ) ≠ 0),
    jsDiv_fin_fin _ _ (by norm_num : ((14 : ℕ) : ℚ) ≠ 0), zero_div,
    jsDiv_fin_zero_pos _ hG14, jsAdd_fin_inf, jsDiv_fin_inf, jsSub_fin_fin]
  norm_num

/-- All-loss window: `meanGain = 0` and the RSI value is exactly 0. -/
theorem rsiAt_all_loss (prices : List ℚ) (i : ℕ)
    (h : ∀ c ∈ windowChanges prices 14 i, c < 0) :
    rsiAt prices 14 i = fin 0 := by
  have hgains : (windowChanges prices 14 i).filter (fun c => decide (0 < c)) = [] :=
    List.filter_eq_nil_iff.mpr fun c hc => by simp [not_lt.mpr (h c hc).le]
  have hloss : (windowChanges prices 14 i).filter (fun c => !decide (0 < c)) =
      windowChanges prices 14 i :=
    List.filter_eq_self.mpr fun c hc => by simp [not_lt.mpr (h c hc).le]
  have hL : 0 < (((windowChanges prices 14 i).filter
      (fun c => !decide (0 < c))).map (fun c => |c|)).sum := by
    rw [hloss]
    refine List.sum_pos _ ?_ ?_
    · intro x hx
      rw [List.mem_map] at hx
      obtain ⟨c, hc, rfl⟩ := hx
      exact abs_pos.mpr (h c hc).ne
    · simp [windowChanges_ne_nil prices i]
  have hL14 : (((windowChanges prices 14 i).filter
      (fun c => !decide (0 < c))).map (fun c => |c|)).sum / ((14 : ℕ) : ℚ) ≠ 0 :=
    (div_pos hL (by norm_num)).ne'
  simp only [rsiAt]
  rw [hgains]
  simp only [List.sum_nil]
  rw [jsDiv_fin_fin _ _ (by norm_num : ((14 : ℕ) : ℚ) ≠ 0),
    jsDiv_fin_fin _ _ (by norm_num : ((14 : ℕ) : ℚ) ≠ 0), zero_div,
    jsDiv_fin_fin _ _ hL14, zero_div, jsAdd_fin_fin,
    jsDiv_fin_fin _ _ (by norm_num : (1 : ℚ) + 0 ≠ 0), jsSub_fin_fin]
  norm_num

/-- Any window containing a nonzero change produces a finite RSI value in
`[0, 100]`. -/
theorem rsiAt_mem_range (prices : List ℚ) (i : ℕ)
    (h : ∃ c ∈ windowChanges prices 14 i, c ≠ 0) :
    ∃ q : ℚ, rsiAt prices 14 i = fin q ∧ 0 ≤ q ∧ q ≤ 100 := by
  have hGnn : 0 ≤ ((windowChanges prices 14 i).filter (fun c => decide (0 < c))).sum := by
    refine List.sum_nonneg fun x hx => ?_
    rw [List.mem_filter] at hx
    exact (of_decide_eq_true hx.2).le
  have hLnn : 0 ≤ (((windowChanges prices 14 i).filter
      (fun c => !decide (0 < c))).map (fun c => |c|)).sum := by
    refine List.sum_nonneg fun x hx => ?_
    rw [List.mem_map] at hx
    obtain ⟨c, _, rfl⟩ := hx
    exact abs_nonneg c
  by_cases hLz : (((windowChanges prices 14 i).filter
      (fun c => !decide (0 < c))).map (fun c => |c|)).sum = 0
  · -- loss-free window: the nonzero change must be a strict gain
    obtain ⟨c, hc, hcne⟩ := h
    have hGpos : 0 < ((windowChanges prices 14 i).filter
        (fun c => decide (0 < c))).sum := by
      rcases lt_trichotomy c 0 with hneg | hzero | hpos
      · exfalso
        have hmem : |c| ∈ ((windowChanges prices 14 i).filter
            (fun c => !decide (0 < c))).map (fun c => |c|) :=
          List.mem_map_of_mem _
            (List.mem_filter.mpr ⟨hc, by simp [not_lt.mpr hneg.le]⟩)
        have hle := List.single_le_sum (fun x hx => ?_) _ hmem
        · rw [hLz] at hle
          exact absurd (lt_of_lt_of_le (abs_pos.mpr hcne) hle) (by norm_num)
        · rw [List.mem_map] at hx
          obtain ⟨d, _, rfl⟩ := hx
          exact abs_nonneg d
      · exact absurd hzero hcne
      · have hmem : c ∈ (windowChanges prices 14 i).filter (fun c => decide (0 < c)) :=
          List.mem_filter.mpr ⟨hc, by simp [hpos]⟩
        have hle := List.single_le_sum (fun x hx => ?_) _ hmem
        · exact lt_of_lt_of_le hpos hle
        · rw [List.mem_filter] at hx
          exact (of_decide_eq_true hx.2).le
    refine ⟨100, ?_, by norm_num, le_refl 100⟩
    simp only [rsiAt]
    rw [hLz]
    rw [jsDiv_fin_fin _ _ (by norm_num : ((14 : ℕ) : ℚ) ≠ 0),
      jsDiv_fin_fin _ _ (by norm_num : ((14 : ℕ) : ℚ) ≠ 0), zero_div,
      jsDiv_fin_zero_pos _ (div_pos hGpos (by norm_num)), jsAdd_fin_inf,
      jsDiv_fin_inf, jsSub_fin_fin]
    norm_num
  · have hLpos : 0 < (((windowChanges prices 14 i).filter
        (fun c => !decide (0 < c))).map (fun c => |c|)).sum :=
      lt_of_le_of_ne hLnn (Ne.symm hLz)
    have hL14 : (((windowChanges prices 14 i).filter
        (fun c => !decide (0 < c))).map (fun c => |c|)).sum / ((14 : ℕ) : ℚ) ≠ 0 :=
      (div_pos hLpos (by norm_num)).ne'
    have hr0 : 0 ≤ ((windowChanges prices 14 i).filter
          (fun c => decide (0 < c))).sum / ((14 : ℕ) : ℚ) /
        ((((windowChanges prices 14 i).filter
          (fun c => !decide (0 < c))).map (fun c => |c|)).sum / ((14 : ℕ) : ℚ)) :=
      div_nonneg (div_nonneg hGnn (by norm_num)) (div_nonneg hLnn (by norm_num))
    refine ⟨100 - 100 / (1 + ((windowChanges prices 14 i).filter
          (fun c => decide (0 < c))).sum / ((14 : ℕ) : ℚ) /
        ((((windowChanges prices 14 i).filter
          (fun c => !decide (0 < c))).map (fun c => |c|)).sum / ((14 : ℕ) : ℚ))),
      ?_, ?_, ?_⟩
    · simp only [rsiAt]
      rw [jsDiv_fin_fin _ _ (by norm_num), jsDiv_fin_fin _ _ (by norm_num),
        jsDiv_fin_fin _ _ hL14, jsAdd_fin_fin, jsDiv_fin_fin _ _ (by positivity),
        jsSub_fin_fin]
    · have hlt : 100 / (1 + ((windowChanges prices 14 i).filter
            (fun c => decide (0 < c))).sum / ((14 : ℕ) : ℚ) /
          ((((windowChanges prices 14 i).filter
            (fun c => !decide (0 < c))).map (fun c => |c|)).sum / ((14 : ℕ) : ℚ))) ≤ 100 :=
        div_le_self (by norm_num) (by linarith)
      linarith
    · have hpos : 0 < 100 / (1 + ((windowChanges prices 14 i).filter
            (fun c => decide (0 < c))).sum / ((14 : ℕ) : ℚ) /
          ((((windowChanges prices 14 i).filter
            (fun c => !decide (0 < c))).map (fun c => |c|)).sum / ((14 : ℕ) : ℚ))) :=
        div_pos (by norm_num) (by linarith)
      linarith

/-- C7 counterexample: on a flat series (15 equal prices) the single
RSI(14) value the code produces is the JavaScript `NaN` of `0/0` — not a
number in `[0, 100]` (`NaN` is no `JsVal.fin q` at all, and both
comparisons against it are false). -/
theorem calculateRSI_nan_on_flat_series :
    calculateRSI (List.replicate 15 (5 : ℚ)) 14 = [JsVal.nan] ∧
    jsLt JsVal.nan (fin 0) = false ∧ jsLt (fin 0) JsVal.nan = false := by
  refine ⟨?_, rfl, rfl⟩
  have hlen : (List.replicate 15 (5 : ℚ)).length = 15 := by simp
  simp only [calculateRSI, hlen]
  norm_num [List.range_succ]
  refine rsiAt_all_zero _ _ ?_
  intro c hc
  simp only [windowChanges, List.mem_map, List.mem_range] at hc
  obtain ⟨t, ht, rfl⟩ := hc
  have h1 : (List.replicate 15 (5 : ℚ)).getD (14 + 1 - 14 + t) 0 = 5 := by
    rw [List.getD_eq_getElem?_getD, List.getElem?_replicate_of_lt (by omega)]
    rfl
  have h2 : (List.replicate 15 (5 : ℚ)).getD (14 - 14 + t) 0 = 5 := by
    rw [List.getD_eq_getElem?_getD, List.getElem?_replicate_of_lt (by omega)]
    rfl
  rw [h1, h2, sub_self]

/-- C7 (amended): every RSI(14) value whose lookback window contains at
least one nonzero price change is a finite number in `[0, 100]`; it is
exactly 100 when every change in the window is a gain and exactly 0 when
every change is a loss.  (A window of all-zero changes instead yields `NaN`,
see the counterexample.) -/
theorem calculateRSI_range_amended (prices : List ℚ) (idx : ℕ)
    (hidx : idx < prices.length - 14) :
    ((∃ c ∈ windowChanges prices 14 (14 + idx), c ≠ 0) →
      ∃ q : ℚ, (calculateRSI prices 14).get? idx = some (JsVal.fin q) ∧
        0 ≤ q ∧ q ≤ 100) ∧
    ((∀ c ∈ windowChanges prices 14 (14 + idx), 0 < c) →
      (calculateRSI prices 14).get? idx = some (JsVal.fin 100)) ∧
    ((∀ c ∈ windowChanges prices 14 (14 + idx), c < 0) →
      (calculateRSI prices 14).get? idx = some (JsVal.fin 0)) := by
  have hget : (calculateRSI prices 14).get? idx = some (rsiAt prices 14 (14 + idx)) := by
    rw [calculateRSI, List.get?_eq_getElem?, List.getElem?_map, List.getElem?_range hidx]
    rfl
  refine ⟨fun h => ?_, fun h => ?_, fun h => ?_⟩
  · obtain ⟨q, hq, h0, h100⟩ := rsiAt_mem_range prices (14 + idx) h
    exact ⟨q, by rw [hget, hq], h0, h100⟩
  · rw [hget, rsiAt_all_gain prices (14 + idx) h]
  · rw [hget, rsiAt_all_loss prices (14 + idx) h]

/-- A strictly increasing 15-point series. -/
def upSeries : List ℚ := (List.range 15).map Nat.cast

/-- Indexing into `upSeries`. -/
theorem upSeries_getD (j : ℕ) (hj : j < 15) : upSeries.getD j 0 = (j : ℚ) := by
  rw [upSeries, List.getD_eq_getElem?_getD, List.getElem?_map, List.getElem?_range hj]
  rfl

/-- Witness for the amended C7: the all-gain series produces RSI exactly
100. -/
theorem calculateRSI_range_amended_witness :
    (calculateRSI upSeries 14).get? 0 = some (JsVal.fin 100) :=
  (calculateRSI_range_amended upSeries 0
      (by rw [upSeries, List.length_map, List.length_range]; norm_num)).2.1 (by
    intro c hc
    simp only [windowChanges, List.mem_map, List.mem_range] at hc
    obtain ⟨t, ht, rfl⟩ := hc
    have h1 : upSeries.getD (14 + 0 + 1 - 14 + t) 0 = ((t + 1 : ℕ) : ℚ) := by
      rw [show 14 + 0 + 1 - 14 + t = t + 1 from by omega]
      exact upSeries_getD (t + 1) (by omega)
    have h2 : upSeries.getD (14 + 0 - 14 + t) 0 = ((t : ℕ) : ℚ) := by
      rw [show 14 + 0 - 14 + t = t from by omega]
      exact upSeries_getD t (by omega)
    rw [h1, h2]
    push_cast
    linarith)

/-- Whatever the inputs, `performTechnicalAnalysis` returns one of the
three ordinary signal strings — there is no insufficient-data variant in
its result type. -/
theorem performTechnicalAnalysis_signal_cases (prices : List ℚ)
    (currentPrice change24h : ℚ) :
    (performTechnicalAnalysis prices currentPrice change24h).signal = "BUY" ∨
    (performTechnicalAnalysis prices currentPrice change24h).signal = "SELL" ∨
    (performTechnicalAnalysis prices currentPrice change24h).signal = "HOLD" := by
  have h : ∀ score : ℤ, signalOf score = "BUY" ∨ signalOf score = "SELL" ∨
      signalOf score = "HOLD" := by
    intro score
    unfold signalOf
    split
    · exact Or.inl rfl
    · split
      · exact Or.inr (Or.inl rfl)
      · exact Or.inr (Or.inr rfl)
  exact h _

/-- C8 (amended): a price series shorter than the RSI lookback (fewer than
15 points, hence also shorter than the 20/26-point lookbacks) still yields
an ordinary signal: the SMA20, SMA50 and RSI indicators are `undefined`
(every comparison against them reads false) and the returned signal is one
of BUY/SELL/HOLD — never an insufficient-data result. -/
theorem performTechnicalAnalysis_short_series (prices : List ℚ)
    (currentPrice change24h : ℚ) (hlen : prices.length < 15) :
    (performTechnicalAnalysis prices currentPrice change24h).indicators.sma20 = none ∧
    (performTechnicalAnalysis prices currentPrice change24h).indicators.sma50 = none ∧
    (performTechnicalAnalysis prices currentPrice change24h).indicators.rsi = none ∧
    ((performTechnicalAnalysis prices currentPrice change24h).signal = "BUY" ∨
     (performTechnicalAnalysis prices currentPrice change24h).signal = "SELL" ∨
     (performTechnicalAnalysis prices currentPrice change24h).signal = "HOLD") := by
  have hsma20 : calculateSMA prices 20 = [] := by
    rw [calculateSMA, Nat.sub_eq_zero_of_le (by omega), List.range_zero, List.map_nil]
  have hsma50 : calculateSMA prices 50 = [] := by
    rw [calculateSMA, Nat.sub_eq_zero_of_le (by omega), List.range_zero, List.map_nil]
  have hrsi : calculateRSI prices 14 = [] := by
    rw [calculateRSI, Nat.sub_eq_zero_of_le (by omega), List.range_zero, List.map_nil]
  refine ⟨?_, ?_, ?_, performTechnicalAnalysis_signal_cases prices currentPrice change24h⟩
  all_goals
    simp only [performTechnicalAnalysis, hsma20, hsma50, hrsi, List.map_nil]
    rfl

/-- A 10-point series, shorter than every indicator lookback. -/
def shortSeries : List ℚ := [1, 2, 3, 4, 5, 6, 7, 8, 9, 10]

/-- Witness for the amended C8 at the concrete 10-point series. -/
theorem performTechnicalAnalysis_short_series_witness :
    (performTechnicalAnalysis shortSeries 5 0).indicators.sma20 = none ∧
    (performTechnicalAnalysis shortSeries 5 0).indicators.sma50 = none ∧
    (performTechnicalAnalysis shortSeries 5 0).indicators.rsi = none ∧
    ((performTechnicalAnalysis shortSeries 5 0).signal = "BUY" ∨
     (performTechnicalAnalysis shortSeries 5 0).signal = "SELL" ∨
     (performTechnicalAnalysis shortSeries 5 0).signal = "HOLD") :=
  performTechnicalAnalysis_short_series shortSeries 5 0 (by norm_num [shortSeries])

/-- C8 counterexample: on a 10-point series the code does not return any
DataInsufficient result — it fabricates an ordinary `HOLD` signal with
confidence 15 even though its SMA20, SMA50 and RSI indicators are all
`undefined` (the two price-vs-SMA comparisons silently read "below"). -/
theorem performTechnicalAnalysis_fabricated_signal :
    (performTechnicalAnalysis shortSeries 5 0).signal = "HOLD" ∧
    (performTechnicalAnalysis shortSeries 5 0).confidence = 15 ∧
    (performTechnicalAnalysis shortSeries 5 0).indicators.rsi = none ∧
    (performTechnicalAnalysis shortSeries 5 0).indicators.sma20 = none ∧
    (performTechnicalAnalysis shortSeries 5 0).indicators.sma50 = none := by
  norm_num [performTechnicalAnalysis, shortSeries, calculateSMA, calculateRSI,
    calculateMACD, calculateEMA, emaLoop, macdEntry, jsSum, jsAdd, jsSub, jsNeg,
    jsMul, jsDiv, jsLt, lastOpt, gtU, ltU, gtO, gtUU, scoreAndReasoning, signalOf,
    List.range_succ]

end KaliTrade
